import Mathlib

/-!
Verification of the project-board tool handlers of github-mcp-server.

The Go handlers are embedded shallowly:

* tool-request arguments become an association list of `Value`s
  (the JSON-compatible argument object);
* the GraphQL client is a record of oracles (`Gql`), one per query or
  mutation shape the handlers issue; the factory `getGQLClient` becomes an
  `Except String Gql` argument;
* every handler returns its `ToolResponse` together with a trace of the
  client interactions it performed (`GqlCall`), in order: acquiring the
  client from the factory, and each query or mutation issued;
* `githubv4.DateTime` values are carried as their already-formatted string
  representation, so `Format` is the identity here (no claim concerns
  date formatting);
* the parameter-extraction helpers (`RequiredParam`, `OptionalParam`,
  `OptionalStringArrayParam`, `OptionalIntParamWithDefault`) live outside
  the provided sources and are modelled from the spec, as marked below.
-/

/-- A JSON-compatible argument or result value (string, number, boolean,
array, or nested object), as produced by decoding a tool request. -/
inductive Value where
  | vStr : String → Value
  | vNum : Int → Value
  | vBool : Bool → Value
  | vArr : List Value → Value
  | vObj : List (String × Value) → Value

/-- A tool request's argument mapping (Go: `map[string]interface{}`). -/
def Request := List (String × Value)

/-- Fetch an argument by name (Go: `request.GetArguments()[name]`). -/
def lookupArg (request : List (String × Value)) (name : String) : Option Value :=
  (request.find? (fun p => p.1 == name)).map (·.2)

/-- Whether the character list `p` occurs contiguously inside `s`
(the computational core of Go's `strings.Contains`). -/
def charsContain (p : List Char) : List Char → Bool
  | [] => List.isPrefixOf p []
  | c :: rest => List.isPrefixOf p (c :: rest) || charsContain p rest

/-- Model of Go's `strings.Contains s sub`. -/
def strContains (s sub : String) : Bool :=
  charsContain sub.data s.data

/-- Model of Go's `strings.HasPrefix s pre`. -/
def strStartsWith (s pre : String) : Bool :=
  List.isPrefixOf pre.data s.data

/-- Whether an `Except` is an error. -/
def Except.failed : Except ε α → Bool
  | .error _ => true
  | .ok _ => false

/-- Modelled from the spec: `RequiredParam[string]` (pkg/github parameter
helpers, not under the provided sources) "fails with a missing/invalid
parameter condition if absent or wrong type", otherwise yields the value. -/
def RequiredParamString (request : List (String × Value)) (name : String) :
    Except String String :=
  match lookupArg request name with
  | some (Value.vStr s) => Except.ok s
  | some _ => Except.error ("parameter " ++ name ++ " is not of the expected type")
  | none => Except.error ("missing required parameter: " ++ name)

/-- Modelled from the spec: `RequiredParam[bool]`, as `RequiredParamString`
but for booleans. -/
def RequiredParamBool (request : List (String × Value)) (name : String) :
    Except String Bool :=
  match lookupArg request name with
  | some (Value.vBool b) => Except.ok b
  | some _ => Except.error ("parameter " ++ name ++ " is not of the expected type")
  | none => Except.error ("missing required parameter: " ++ name)

/-- Modelled from the spec: `OptionalParam[string]` "returns a zero value
(and an ignorable error) if absent"; every caller in these handlers ignores
the error, so only the value is modelled. -/
def OptionalParamString (request : List (String × Value)) (name : String) : String :=
  match lookupArg request name with
  | some (Value.vStr s) => s
  | _ => ""

/-- Modelled from the spec: `OptionalParam[bool]`, zero value `false` when
absent or of the wrong type. -/
def OptionalParamBool (request : List (String × Value)) (name : String) : Bool :=
  match lookupArg request name with
  | some (Value.vBool b) => b
  | _ => false

/-- Modelled from the spec: `OptionalParam[map[string]interface{}]`, zero
value (empty mapping) when absent or of the wrong type. -/
def OptionalParamObj (request : List (String × Value)) (name : String) :
    List (String × Value) :=
  match lookupArg request name with
  | some (Value.vObj l) => l
  | _ => []

/-- Modelled from the spec: the optional-with-default variant "substitutes a
caller-supplied default" when the parameter is absent; a present number is
taken as-is, a wrongly-typed value yields the (ignored-error) zero value. -/
def OptionalIntParamWithDefault (request : List (String × Value)) (name : String)
    (d : Int) : Int :=
  match lookupArg request name with
  | some (Value.vNum n) => n
  | some _ => 0
  | none => d

/-- Convert a list of JSON values to strings, failing on the first
non-string element. -/
def valuesAsStrings : List Value → Option (List String)
  | [] => some []
  | Value.vStr s :: rest => (valuesAsStrings rest).map (s :: ·)
  | _ => none

/-- Modelled from the spec: the array-of-string variant "accepts a
heterogeneous array and fails if any element is not a string"; an absent
parameter yields the empty list without error. -/
def OptionalStringArrayParam (request : List (String × Value)) (name : String) :
    Except String (List String) :=
  match lookupArg request name with
  | none => Except.ok []
  | some (Value.vArr vs) =>
    match valuesAsStrings vs with
    | some ss => Except.ok ss
    | none => Except.error ("parameter " ++ name ++ " is not of type array of strings")
  | some _ => Except.error ("parameter " ++ name ++ " is not of type array")

/-- ValidateProjectID checks if a project ID has the correct format
(source: `strings.HasPrefix(id, "PVT_")`). -/
def ValidateProjectID (id : String) : Except String Unit :=
  if !(strStartsWith id "PVT_") then
    Except.error ("invalid project ID format: '" ++ id ++
      "'. Project IDs should start with 'PVT_' (e.g., 'PVT_kwDOAM6J184ACzDx')")
  else Except.ok ()

/-- ValidateColumnID checks if a column ID has the correct format
(source: prefix `PVTFSC_` or `PVTSSF_`). -/
def ValidateColumnID (id : String) : Except String Unit :=
  if !(strStartsWith id "PVTFSC_") && !(strStartsWith id "PVTSSF_") then
    Except.error ("invalid column ID format: '" ++ id ++
      "'. Column IDs should start with 'PVTFSC_' or 'PVTSSF_'")
  else Except.ok ()

/-- ValidateItemID checks if an item/card ID has the correct format
(source: prefix `PVTI_`). -/
def ValidateItemID (id : String) : Except String Unit :=
  if !(strStartsWith id "PVTI_") then
    Except.error ("invalid item ID format: '" ++ id ++
      "'. Item IDs should start with 'PVTI_'")
  else Except.ok ()

/-- A decoded JSON value, as produced by Go's `encoding/json` into
`interface{}` targets (numbers keep their lexeme: no claim computes
with them). -/
inductive Json where
  | null : Json
  | bool : Bool → Json
  | num : String → Json
  | str : String → Json
  | arr : List Json → Json
  | obj : List (String × Json) → Json

/-- GraphQLError represents a GraphQL error response (message, path,
extensions). -/
structure GraphQLError where
  message : String
  path : List Json
  extensions : List (String × Json)

/-- JSON insignificant whitespace. -/
def isJsonWs (c : Char) : Bool :=
  c == ' ' || c == '\t' || c == '\n' || c == '\r'

/-- Drop leading JSON whitespace. -/
def skipWs : List Char → List Char
  | [] => []
  | c :: rest => if isJsonWs c then skipWs rest else c :: rest

/-- Split the longest run of leading decimal digits. -/
def takeDigits : List Char → List Char × List Char
  | [] => ([], [])
  | c :: rest =>
    if c.isDigit then
      let p := takeDigits rest
      (c :: p.1, p.2)
    else ([], c :: rest)

/-- Numeric value of a hexadecimal digit. -/
def hexVal (c : Char) : Nat :=
  if c.isDigit then c.toNat - 48
  else if "abcdef".data.contains c then c.toNat - 97 + 10
  else if "ABCDEF".data.contains c then c.toNat - 65 + 10
  else 0

/-- Whether a character is a hexadecimal digit. -/
def isHexDigitChar (c : Char) : Bool :=
  "0123456789abcdefABCDEF".data.contains c

/-- Parse the body of a JSON string, after the opening quote; yields the
decoded characters and the input after the closing quote. -/
def parseJsonStringChars : List Char → Option (List Char × List Char)
  | [] => none
  | '"' :: rest => some ([], rest)
  | '\\' :: rest =>
    match rest with
    | '"' :: r => (parseJsonStringChars r).map (fun p => ('"' :: p.1, p.2))
    | '\\' :: r => (parseJsonStringChars r).map (fun p => ('\\' :: p.1, p.2))
    | '/' :: r => (parseJsonStringChars r).map (fun p => ('/' :: p.1, p.2))
    | 'b' :: r => (parseJsonStringChars r).map (fun p => (Char.ofNat 8 :: p.1, p.2))
    | 'f' :: r => (parseJsonStringChars r).map (fun p => (Char.ofNat 12 :: p.1, p.2))
    | 'n' :: r => (parseJsonStringChars r).map (fun p => ('\n' :: p.1, p.2))
    | 'r' :: r => (parseJsonStringChars r).map (fun p => ('\r' :: p.1, p.2))
    | 't' :: r => (parseJsonStringChars r).map (fun p => ('\t' :: p.1, p.2))
    | 'u' :: a :: b :: c :: d :: r =>
      if isHexDigitChar a && isHexDigitChar b && isHexDigitChar c && isHexDigitChar d then
        (parseJsonStringChars r).map (fun p =>
          (Char.ofNat (hexVal a * 4096 + hexVal b * 256 + hexVal c * 16 + hexVal d) :: p.1,
            p.2))
      else none
    | _ => none
  | c :: rest => (parseJsonStringChars rest).map (fun p => (c :: p.1, p.2))

/-- Parse the fractional part of a JSON number (possibly empty). -/
def parseJsonFrac (cs : List Char) : Option (List Char × List Char) :=
  match cs with
  | '.' :: r =>
    match takeDigits r with
    | ([], _) => none
    | (ds, t) => some ('.' :: ds, t)
  | _ => some ([], cs)

/-- Parse the exponent part of a JSON number (possibly empty). -/
def parseJsonExp (cs : List Char) : Option (List Char × List Char) :=
  match cs with
  | 'e' :: r => parseJsonExpRest 'e' r
  | 'E' :: r => parseJsonExpRest 'E' r
  | _ => some ([], cs)
where
  parseJsonExpRest (e : Char) (r : List Char) : Option (List Char × List Char) :=
    let p := match r with
      | '+' :: r2 => (['+'], r2)
      | '-' :: r2 => (['-'], r2)
      | _ => ([], r)
    match takeDigits p.2 with
    | ([], _) => none
    | (ds, t) => some (e :: p.1 ++ ds, t)

/-- Parse the digits of a JSON number after an optional minus sign. -/
def parseJsonNumberBody (cs : List Char) : Option (List Char × List Char) :=
  match takeDigits cs with
  | ([], _) => none
  | (ds, r1) =>
    if 1 < ds.length && ds.head? == some '0' then none
    else
      match parseJsonFrac r1 with
      | none => none
      | some (f, r2) =>
        (parseJsonExp r2).map (fun p => (ds ++ f ++ p.1, p.2))

/-- Parse a JSON number, returning its lexeme. -/
def parseJsonNumber (cs : List Char) : Option (List Char × List Char) :=
  match cs with
  | '-' :: r => (parseJsonNumberBody r).map (fun p => ('-' :: p.1, p.2))
  | _ => parseJsonNumberBody cs

mutual

/-- Parse one JSON value (fuel-bounded recursive descent; the callers pass
more fuel than any input can consume, and no theorem relies on success). -/
def parseJsonValue : Nat → List Char → Option (Json × List Char)
  | 0, _ => none
  | fuel + 1, cs =>
    match skipWs cs with
    | '{' :: rest => parseJsonObjBody fuel rest
    | '[' :: rest => parseJsonArrBody fuel rest
    | '"' :: rest => (parseJsonStringChars rest).map (fun p => (Json.str (String.mk p.1), p.2))
    | 't' :: 'r' :: 'u' :: 'e' :: rest => some (Json.bool true, rest)
    | 'f' :: 'a' :: 'l' :: 's' :: 'e' :: rest => some (Json.bool false, rest)
    | 'n' :: 'u' :: 'l' :: 'l' :: rest => some (Json.null, rest)
    | cs2 => (parseJsonNumber cs2).map (fun p => (Json.num (String.mk p.1), p.2))

/-- Parse an object body, right after the opening brace. -/
def parseJsonObjBody : Nat → List Char → Option (Json × List Char)
  | 0, _ => none
  | fuel + 1, cs =>
    match skipWs cs with
    | '}' :: rest => some (Json.obj [], rest)
    | cs2 => (parseJsonMembers fuel cs2).map (fun p => (Json.obj p.1, p.2))

/-- Parse one or more comma-separated object members, up to and including
the closing brace. -/
def parseJsonMembers : Nat → List Char → Option (List (String × Json) × List Char)
  | 0, _ => none
  | fuel + 1, cs =>
    match skipWs cs with
    | '"' :: r =>
      match parseJsonStringChars r with
      | none => none
      | some (k, r2) =>
        match skipWs r2 with
        | ':' :: r3 =>
          match parseJsonValue fuel r3 with
          | none => none
          | some (v, r4) =>
            match skipWs r4 with
            | ',' :: r5 =>
              (parseJsonMembers fuel r5).map (fun p => ((String.mk k, v) :: p.1, p.2))
            | '}' :: r5 => some ([(String.mk k, v)], r5)
            | _ => none
        | _ => none
    | _ => none

/-- Parse an array body, right after the opening bracket. -/
def parseJsonArrBody : Nat → List Char → Option (Json × List Char)
  | 0, _ => none
  | fuel + 1, cs =>
    match skipWs cs with
    | ']' :: rest => some (Json.arr [], rest)
    | cs2 => (parseJsonElements fuel cs2).map (fun p => (Json.arr p.1, p.2))

/-- Parse one or more comma-separated array elements, up to and including
the closing bracket. -/
def parseJsonElements : Nat → List Char → Option (List Json × List Char)
  | 0, _ => none
  | fuel + 1, cs =>
    match parseJsonValue fuel cs with
    | none => none
    | some (v, r) =>
      match skipWs r with
      | ',' :: r2 => (parseJsonElements fuel r2).map (fun p => (v :: p.1, p.2))
      | ']' :: r2 => some ([v], r2)
      | _ => none

end

/-- ASCII case folding, as Go's `encoding/json` field matching uses. -/
def asciiFoldChar (c : Char) : Char :=
  if 65 ≤ c.toNat && c.toNat ≤ 90 then Char.ofNat (c.toNat + 32) else c

/-- Case-insensitive (ASCII) string comparison. -/
def asciiEqFold (a b : String) : Bool :=
  a.data.map asciiFoldChar == b.data.map asciiFoldChar

/-- Look a field up the way Go's `encoding/json` matches JSON keys to struct
fields: an exact tag match wins, otherwise a case-insensitive one; of
duplicated keys the last occurrence is kept. -/
def goJsonLookupField (fields : List (String × Json)) (name : String) : Option Json :=
  match fields.reverse.find? (fun p => p.1 == name) with
  | some p => some p.2
  | none => (fields.reverse.find? (fun p => asciiEqFold p.1 name)).map (·.2)

/-- Decode one element of the `errors` array as Go unmarshals it into the
`GraphQLError` struct (`none` is a type error). -/
def decodeGraphQLErrorJson : Json → Option GraphQLError
  | Json.null => some ⟨"", [], []⟩
  | Json.obj fields =>
    match goJsonLookupField fields "message" with
    | some (Json.str s) => decodeGraphQLErrorRest fields s
    | some Json.null => decodeGraphQLErrorRest fields ""
    | none => decodeGraphQLErrorRest fields ""
    | some _ => none
  | _ => none
where
  decodeGraphQLErrorRest (fields : List (String × Json)) (msg : String) :
      Option GraphQLError :=
    match goJsonLookupField fields "path" with
    | some (Json.arr p) => decodeGraphQLErrorExt fields msg p
    | some Json.null => decodeGraphQLErrorExt fields msg []
    | none => decodeGraphQLErrorExt fields msg []
    | some _ => none
  decodeGraphQLErrorExt (fields : List (String × Json)) (msg : String)
      (p : List Json) : Option GraphQLError :=
    match goJsonLookupField fields "extensions" with
    | some (Json.obj ext) => some ⟨msg, p, ext⟩
    | some Json.null => some ⟨msg, p, []⟩
    | none => some ⟨msg, p, []⟩
    | some _ => none

/-- Decode a whole `GraphQLErrors` response struct (`errors` list) as Go
unmarshals it (`none` is a type error). -/
def decodeGraphQLErrorsJson : Json → Option (List GraphQLError)
  | Json.null => some []
  | Json.obj fields =>
    match goJsonLookupField fields "errors" with
    | none => some []
    | some Json.null => some []
    | some (Json.arr els) => els.mapM decodeGraphQLErrorJson
    | some _ => none
  | _ => none

/-- Model of `json.Unmarshal([]byte(s), &gqlErrors)`: parse the full input
as one JSON value (with surrounding whitespace) and decode it. -/
def goJsonUnmarshalGraphQLErrors (s : String) : Option (List GraphQLError) :=
  match parseJsonValue (s.length + 8) s.data with
  | some (j, rest) => if (skipWs rest).isEmpty then decodeGraphQLErrorsJson j else none
  | none => none

/-- Fallback branch of ParseGraphQLError: recognize known GraphQL error
patterns in the raw text and wrap the whole text as a single error. -/
def parseGraphQLErrorFallback (errMsg : String) : Option (List GraphQLError) :=
  if strContains errMsg "Could not resolve to" || strContains errMsg "was not found" ||
      strContains errMsg "must be a member" || strContains errMsg "insufficient scopes" then
    some [⟨errMsg, [], []⟩]
  else none

/-- ParseGraphQLError extracts structured error information from a GraphQL
error: first as JSON, then by substring patterns (`none` models the
`(nil, false)` return; the Go nil-error guard corresponds to no call). -/
def ParseGraphQLError (errMsg : String) : Option (List GraphQLError) :=
  match goJsonUnmarshalGraphQLErrors errMsg with
  | some es => if 0 < es.length then some es else parseGraphQLErrorFallback errMsg
  | none => parseGraphQLErrorFallback errMsg

mutual

/-- Model of `fmt.Sprintf("%v", p)` for a decoded JSON path element. -/
def goFormatPathElem : Json → String
  | Json.str s => s
  | Json.num l => l
  | Json.bool b => if b then "true" else "false"
  | Json.null => "<nil>"
  | Json.arr es => "[" ++ goFormatPathList es ++ "]"
  | Json.obj fs => "map[" ++ goFormatPathFields fs ++ "]"

/-- Space-separated rendering of a list of path elements. -/
def goFormatPathList : List Json → String
  | [] => ""
  | [e] => goFormatPathElem e
  | e :: rest => goFormatPathElem e ++ " " ++ goFormatPathList rest

/-- Space-separated `key:value` rendering of object fields (Go sorts map
keys; ordering is irrelevant to every claim). -/
def goFormatPathFields : List (String × Json) → String
  | [] => ""
  | [f] => f.1 ++ ":" ++ goFormatPathElem f.2
  | f :: rest => f.1 ++ ":" ++ goFormatPathElem f.2 ++ " " ++ goFormatPathFields rest

end

/-- Remediation hint appended for dangling global-id references. -/
def hintGlobalId : String :=
  "\nThis usually means the item was deleted or you don't have permission to access it."

/-- Remediation hint appended for organization-membership errors. -/
def hintMembership : String :=
  "\nYou need to be a member of the organization to perform this action."

/-- Remediation hint appended for token-scope errors. -/
def hintScopes : String :=
  "\nYour GitHub token needs additional permissions. Check the required scopes in the documentation."

/-- Remediation hint appended for not-found errors. -/
def hintNotFound : String :=
  "\nVerify that the ID is correct and that you have access to this resource."

/-- formatSingleError renders one GraphQL error: append the path annotation
when available, then the first matching remediation hint. -/
def formatSingleError (e : GraphQLError) : String :=
  let msg := e.message
  let msg := if 0 < e.path.length then
      msg ++ " (at path: " ++ String.intercalate "." (e.path.map goFormatPathElem) ++ ")"
    else msg
  if strContains msg "Could not resolve to a node with the global id" then
    msg ++ hintGlobalId
  else if strContains msg "must be a member of the" then
    msg ++ hintMembership
  else if strContains msg "insufficient scopes" then
    msg ++ hintScopes
  else if strContains msg "was not found" then
    msg ++ hintNotFound
  else msg

/-- FormatGraphQLError formats a GraphQL error for user display: parsed
errors are rendered singly or as a numbered list, unparsed text passes
through verbatim. -/
def FormatGraphQLError (errMsg : String) : String :=
  match ParseGraphQLError errMsg with
  | none => errMsg
  | some es =>
    match es with
    | [e] => formatSingleError e
    | _ =>
      "Multiple errors:\n" ++ String.intercalate "\n"
        (es.enum.map (fun p => toString (p.1 + 1) ++ ". " ++ formatSingleError p.2))

/-- Result of the owner-resolution query of create_project_board: the `User`
and `Organization` branches' IDs (zero-valued when that branch is absent). -/
structure OwnerIds where
  userId : String
  orgId : String

/-- The `createProjectV2` mutation's returned project. -/
structure CreatedProject where
  id : String
  number : Int
  title : String
  isPublic : Bool
  url : String
  description : String

/-- The `updateProjectV2` mutation's returned project. -/
structure UpdatedProject where
  id : String
  title : String
  description : String
  shortDescription : String
  isPublic : Bool
  closed : Bool
  url : String
  updatedAt : String

/-- One project node of the list_project_boards query. -/
structure ProjectNode where
  id : String
  number : Int
  title : String
  description : String
  shortDescription : String
  isPublic : Bool
  closed : Bool
  url : String
  createdAt : String
  updatedAt : String
  itemsCount : Int

/-- One field node of the get_project_board query: the `__typename`
discriminant plus every inline-fragment branch (zero-valued when that
branch does not apply). -/
structure FieldNode where
  typeName : String
  fieldId : String
  fieldName : String
  ssId : String
  ssName : String
  ssOptions : List (String × String)
  iterId : String
  iterName : String

/-- The get_project_board query's project payload. -/
structure ProjectDetails where
  id : String
  number : Int
  title : String
  description : String
  shortDescription : String
  isPublic : Bool
  closed : Bool
  url : String
  createdAt : String
  updatedAt : String
  ownerTypeName : String
  ownerUserLogin : String
  ownerOrgLogin : String
  itemsTotal : Int
  fields : List FieldNode
  fieldsTotal : Int

/-- One option of the Status single-select field. -/
structure OptionNode where
  id : String
  name : String
  description : String
  color : String

/-- The Status single-select field of a project. -/
structure StatusField where
  id : String
  name : String
  options : List OptionNode

/-- One item node of the list_project_columns query: its id and its Status
field value's single-select branch. -/
structure ColItemNode where
  id : String
  statusName : String
  statusOptionId : String
  statusDescription : String
  statusColor : String

/-- The list_project_columns query's payload. -/
structure ListColumnsResult where
  statusField : StatusField
  items : List ColItemNode
  itemsTotal : Int

/-- The column-option node query's payload (move/bulk-move): the option and
its backing field and project IDs. -/
structure ColumnInfo where
  optionId : String
  optionName : String
  fieldId : String
  projectId : String

/-- One field node of the update_project_card item query: the
`ProjectV2Field` and `ProjectV2SingleSelectField` branches. -/
structure UPCFieldNode where
  pfId : String
  pfName : String
  ssfId : String
  ssfName : String

/-- The update_project_card item query's payload. -/
structure ItemInfo where
  projectId : String
  fields : List UPCFieldNode

/-- The GraphQL client: one oracle per query or mutation shape these
handlers issue, each mapping the operation's variables to its outcome. -/
structure Gql where
  ownerQuery : String → Except String OwnerIds
  repoQuery : String → String → Except String String
  createProject : List (String × Value) → Except String CreatedProject
  updateProjectVisibility : String → Bool → Except String Unit
  updateProject : List (String × Value) → Except String UpdatedProject
  deleteProject : String → Except String String
  listProjects : String → Int → Bool → Except String (List ProjectNode × List ProjectNode)
  getProject : String → Except String ProjectDetails
  statusFieldQuery : String → Except String StatusField
  listColumnsQuery : String → Except String ListColumnsResult
  columnOptionQuery : String → Except String ColumnInfo
  moveCardMutation : String → String → String → String → Except String (List (String × String))
  updateItemQuery : String → Except String ItemInfo
  updateFieldMutation : String → String → String → Value → Except String Unit
  archiveItemMutation : String → Except String Unit
  deleteItemMutation : String → Except String String
  bulkMoveMutation : String → String → String → String → Except String Unit

/-- One recorded client interaction: acquiring the client from the factory,
or issuing a named query or mutation. -/
inductive GqlCall where
  | acquireClient : GqlCall
  | query : String → GqlCall
  | mutate : String → GqlCall
deriving DecidableEq

/-- A handler's outcome: a tool-level error (`mcp.NewToolResultError`), a
success payload (`mcp.NewToolResultText` of the marshalled map), or a hard
failure (the handler returns a Go error). -/
inductive ToolResponse where
  | errResult : String → ToolResponse
  | okResult : List (String × Value) → ToolResponse
  | fatal : String → ToolResponse

/-- Whether a response is a tool-level error result. -/
def ToolResponse.isToolError : ToolResponse → Bool
  | .errResult _ => true
  | _ => false

/-- Fetch a key of a success payload. -/
def ToolResponse.field : ToolResponse → String → Option Value
  | .okResult r, k => lookupArg r k
  | _, _ => none

/-- Whether a call is a query or mutation (a network operation). -/
def isNetworkCall : GqlCall → Bool
  | .acquireClient => false
  | _ => true

/-- Whether a call is a mutation. -/
def isMutateCall : GqlCall → Bool
  | .mutate _ => true
  | _ => false

/-- Timestamps are carried as their formatted representation, so the Go
`Format("2006-01-02T15:04:05Z")` is the identity here. -/
def formatDateTime (d : String) : String := d

/-- The create_project_board success payload. -/
def createBoardResult (p : CreatedProject) (template : String) : List (String × Value) :=
  [("id", Value.vStr p.id), ("number", Value.vNum p.number),
   ("title", Value.vStr p.title), ("url", Value.vStr p.url),
   ("description", Value.vStr p.description), ("public", Value.vBool p.isPublic),
   ("template", Value.vStr template)]

/-- CreateProjectBoard creates a new project board: resolve the owner login
(user first, then organization), optionally resolve a repository, issue the
creation mutation, and, only if `public` was requested, a best-effort
visibility update whose failure is only logged. -/
def CreateProjectBoard (getGQLClient : Except String Gql)
    (request : List (String × Value)) : ToolResponse × List GqlCall :=
  match RequiredParamString request "name" with
  | .error e => (.errResult e, [])
  | .ok name =>
  match RequiredParamString request "owner" with
  | .error e => (.errResult e, [])
  | .ok owner =>
  let description := OptionalParamString request "description"
  let repository := OptionalParamString request "repository"
  let template := OptionalParamString request "template"
  let isPublic := OptionalParamBool request "public"
  match getGQLClient with
  | .error e => (.fatal ("failed to get GitHub GraphQL client: " ++ e), [.acquireClient])
  | .ok client =>
  let tr0 : List GqlCall := [.acquireClient, .query "user-organization"]
  match client.ownerQuery owner with
  | .error e => (.errResult ("failed to get owner ID: " ++ e), tr0)
  | .ok ownerIds =>
  let ownerChoice : Option String :=
    if ownerIds.userId ≠ "" then some ownerIds.userId
    else if ownerIds.orgId ≠ "" then some ownerIds.orgId
    else none
  match ownerChoice with
  | none => (.errResult "owner not found", tr0)
  | some ownerID =>
  let input0 : List (String × Value) :=
    [("ownerId", Value.vStr ownerID), ("title", Value.vStr name)]
  let input1 := if description ≠ "" then
      input0 ++ [("description", Value.vStr description)]
    else input0
  let create := fun (input : List (String × Value)) (tr : List GqlCall) =>
    let tr := tr ++ [GqlCall.mutate "createProjectV2"]
    match client.createProject input with
    | .error e => (ToolResponse.errResult ("failed to create project board: " ++ e), tr)
    | .ok p =>
      if isPublic then
        let _visOutcome := client.updateProjectVisibility p.id isPublic
        (ToolResponse.okResult (createBoardResult p template),
          tr ++ [GqlCall.mutate "updateProjectV2"])
      else (ToolResponse.okResult (createBoardResult p template), tr)
  if repository ≠ "" then
    match client.repoQuery owner repository with
    | .error e =>
      (.errResult ("failed to get repository ID: " ++ e), tr0 ++ [.query "repository"])
    | .ok repoId =>
      create (input1 ++ [("repositoryId", Value.vStr repoId)]) (tr0 ++ [.query "repository"])
  else create input1 tr0

/-- The update_project_board mutation input: `projectId` plus exactly the
optional fields present in the request (Go type assertions on the raw
argument map). -/
def updateBoardInput (request : List (String × Value)) (boardID : String) :
    List (String × Value) :=
  let input : List (String × Value) := [("projectId", Value.vStr boardID)]
  let input := match lookupArg request "title" with
    | some (Value.vStr t) => if t ≠ "" then input ++ [("title", Value.vStr t)] else input
    | _ => input
  let input := match lookupArg request "description" with
    | some (Value.vStr d) => if d ≠ "" then input ++ [("description", Value.vStr d)] else input
    | _ => input
  let input := match lookupArg request "short_description" with
    | some (Value.vStr s) =>
      if s ≠ "" then input ++ [("shortDescription", Value.vStr s)] else input
    | _ => input
  let input := match lookupArg request "public" with
    | some (Value.vBool b) => input ++ [("public", Value.vBool b)]
    | _ => input
  match lookupArg request "closed" with
  | some (Value.vBool b) => input ++ [("closed", Value.vBool b)]
  | _ => input

/-- UpdateProjectBoard updates settings and metadata of an existing project
board, sending only the sparse fields present in the request. -/
def UpdateProjectBoard (getGQLClient : Except String Gql)
    (request : List (String × Value)) : ToolResponse × List GqlCall :=
  match RequiredParamString request "board_id" with
  | .error e => (.errResult e, [])
  | .ok boardID =>
  match getGQLClient with
  | .error e => (.fatal ("failed to get GitHub GraphQL client: " ++ e), [.acquireClient])
  | .ok client =>
  let tr : List GqlCall := [.acquireClient, .mutate "updateProjectV2"]
  match client.updateProject (updateBoardInput request boardID) with
  | .error e => (.errResult ("failed to update project board: " ++ e), tr)
  | .ok p =>
    (.okResult
      [("id", Value.vStr p.id), ("title", Value.vStr p.title),
       ("description", Value.vStr p.description),
       ("short_description", Value.vStr p.shortDescription),
       ("public", Value.vBool p.isPublic), ("closed", Value.vBool p.closed),
       ("url", Value.vStr p.url),
       ("updated_at", Value.vStr (formatDateTime p.updatedAt))], tr)

/-- DeleteProjectBoard deletes a project board; the `confirm` flag is
required and must be true before the delete mutation is issued. -/
def DeleteProjectBoard (getGQLClient : Except String Gql)
    (request : List (String × Value)) : ToolResponse × List GqlCall :=
  match RequiredParamString request "board_id" with
  | .error e => (.errResult e, [])
  | .ok boardID =>
  match RequiredParamBool request "confirm" with
  | .error e => (.errResult e, [])
  | .ok confirm =>
  if !confirm then
    (.errResult "deletion not confirmed - set confirm to true to delete", [])
  else
    match getGQLClient with
    | .error e => (.fatal ("failed to get GitHub GraphQL client: " ++ e), [.acquireClient])
    | .ok client =>
    let tr : List GqlCall := [.acquireClient, .mutate "deleteProjectV2"]
    match client.deleteProject boardID with
    | .error e => (.errResult ("failed to delete project board: " ++ e), tr)
    | .ok deletedId =>
      (.okResult [("deleted", Value.vBool true), ("id", Value.vStr deletedId)], tr)

/-- One output entry of list_project_boards, annotated with its owner
type. -/
def projectEntry (ownerType : String) (p : ProjectNode) : List (String × Value) :=
  [("id", Value.vStr p.id), ("number", Value.vNum p.number),
   ("title", Value.vStr p.title), ("description", Value.vStr p.description),
   ("short_description", Value.vStr p.shortDescription),
   ("public", Value.vBool p.isPublic), ("closed", Value.vBool p.closed),
   ("url", Value.vStr p.url),
   ("created_at", Value.vStr (formatDateTime p.createdAt)),
   ("updated_at", Value.vStr (formatDateTime p.updatedAt)),
   ("items_count", Value.vNum p.itemsCount),
   ("owner_type", Value.vStr ownerType)]

/-- The effective owner-type filter of list_project_boards (`all` when
absent). -/
def listBoardsOwnerType (request : List (String × Value)) : String :=
  let t := OptionalParamString request "type"
  if t = "" then "all" else t

/-- The effective limit of list_project_boards (default 20, capped at
100). -/
def listBoardsLimit (request : List (String × Value)) : Int :=
  let l := OptionalIntParamWithDefault request "limit" 20
  if l > 100 then 100 else l

/-- ListProjectBoards lists project boards: one query covering both the
user and the organization namespace, then client-side filtering by the
requested owner type, each entry annotated with its owner type. -/
def ListProjectBoards (getGQLClient : Except String Gql)
    (request : List (String × Value)) : ToolResponse × List GqlCall :=
  match RequiredParamString request "owner" with
  | .error e => (.errResult e, [])
  | .ok owner =>
  let ownerType := listBoardsOwnerType request
  let includeClosed := OptionalParamBool request "include_closed"
  let limit := listBoardsLimit request
  match getGQLClient with
  | .error e => (.fatal ("failed to get GitHub GraphQL client: " ++ e), [.acquireClient])
  | .ok client =>
  let tr : List GqlCall := [.acquireClient, .query "projectsV2"]
  match client.listProjects owner limit includeClosed with
  | .error e => (.errResult ("failed to list project boards: " ++ e), tr)
  | .ok nodes =>
    let userEntries := if ownerType = "user" || ownerType = "all" then
        nodes.1.map (fun p => Value.vObj (projectEntry "user" p))
      else []
    let orgEntries := if ownerType = "organization" || ownerType = "all" then
        nodes.2.map (fun p => Value.vObj (projectEntry "organization" p))
      else []
    let projects := userEntries ++ orgEntries
    (.okResult [("projects", Value.vArr projects),
      ("total_count", Value.vNum projects.length)], tr)

/-- One output entry of get_project_board's `fields` section (the switch on
the node's `__typename`). -/
def fieldEntry (f : FieldNode) : Value :=
  let base : List (String × Value) := [("type", Value.vStr f.typeName)]
  if f.typeName = "ProjectV2Field" then
    Value.vObj (base ++ [("id", Value.vStr f.fieldId), ("name", Value.vStr f.fieldName)])
  else if f.typeName = "ProjectV2SingleSelectField" then
    Value.vObj (base ++ [("id", Value.vStr f.ssId), ("name", Value.vStr f.ssName),
      ("options", Value.vArr (f.ssOptions.map (fun o =>
        Value.vObj [("id", Value.vStr o.1), ("name", Value.vStr o.2)])))])
  else if f.typeName = "ProjectV2IterationField" then
    Value.vObj (base ++ [("id", Value.vStr f.iterId), ("name", Value.vStr f.iterName)])
  else Value.vObj base

/-- GetProjectBoard returns detailed project information, with statistics
and field definitions gated by the `include_stats` / `include_fields`
flags (which the source forces back to true whenever they are false). -/
def GetProjectBoard (getGQLClient : Except String Gql)
    (request : List (String × Value)) : ToolResponse × List GqlCall :=
  match RequiredParamString request "board_id" with
  | .error e => (.errResult e, [])
  | .ok boardID =>
  let includeFields0 := OptionalParamBool request "include_fields"
  let includeFields := if includeFields0 = false then true else includeFields0
  let includeStats0 := OptionalParamBool request "include_stats"
  let includeStats := if includeStats0 = false then true else includeStats0
  match getGQLClient with
  | .error e => (.fatal ("failed to get GitHub GraphQL client: " ++ e), [.acquireClient])
  | .ok client =>
  let tr : List GqlCall := [.acquireClient, .query "projectNode"]
  match client.getProject boardID with
  | .error e => (.errResult ("failed to get project board: " ++ e), tr)
  | .ok project =>
    let ownerLogin := if project.ownerTypeName = "User" then project.ownerUserLogin
      else if project.ownerTypeName = "Organization" then project.ownerOrgLogin
      else ""
    let base : List (String × Value) :=
      [("id", Value.vStr project.id), ("number", Value.vNum project.number),
       ("title", Value.vStr project.title),
       ("description", Value.vStr project.description),
       ("short_description", Value.vStr project.shortDescription),
       ("public", Value.vBool project.isPublic), ("closed", Value.vBool project.closed),
       ("url", Value.vStr project.url),
       ("created_at", Value.vStr (formatDateTime project.createdAt)),
       ("updated_at", Value.vStr (formatDateTime project.updatedAt)),
       ("owner", Value.vObj [("login", Value.vStr ownerLogin),
         ("type", Value.vStr project.ownerTypeName)])]
    let withStats := if includeStats then
        base ++ [("statistics", Value.vObj [("total_items", Value.vNum project.itemsTotal)])]
      else base
    let withFields := if includeFields then
        withStats ++ [("fields", Value.vArr (project.fields.map fieldEntry)),
          ("fields_count", Value.vNum project.fieldsTotal)]
      else withStats
    (.okResult withFields, tr)

/-- The note returned by every column-mutation handler, acknowledging that
columns are Status-field options in the remote model. -/
def columnsApiNote : String :=
  "Note: GitHub Projects API v2 manages columns as Status field options"

/-- CreateProjectColumn resolves the project's Status field and returns a
description of the column that would be added; no mutation is issued (the
mutation in the source is commented out). -/
def CreateProjectColumn (getGQLClient : Except String Gql)
    (request : List (String × Value)) : ToolResponse × List GqlCall :=
  match RequiredParamString request "board_id" with
  | .error e => (.errResult e, [])
  | .ok boardID =>
  match RequiredParamString request "name" with
  | .error e => (.errResult e, [])
  | .ok name =>
  let description := OptionalParamString request "description"
  let limit := OptionalIntParamWithDefault request "limit" 10
  let color := OptionalParamString request "color"
  match getGQLClient with
  | .error e => (.fatal ("failed to get GitHub GraphQL client: " ++ e), [.acquireClient])
  | .ok client =>
  let tr : List GqlCall := [.acquireClient, .query "statusField"]
  match client.statusFieldQuery boardID with
  | .error e => (.errResult ("failed to get project Status field: " ++ e), tr)
  | .ok statusField =>
    if statusField.id = "" then
      (.errResult "project does not have a Status field", tr)
    else
      -- The source also builds a local newOptions array (existing options
      -- plus the new column) that feeds nothing downstream.
      let _newOptions := statusField.options.map (fun o =>
        [("id", Value.vStr o.id), ("name", Value.vStr o.name)])
      (.okResult
        [("field_id", Value.vStr statusField.id), ("name", Value.vStr name),
         ("description", Value.vStr description), ("color", Value.vStr color),
         ("limit", Value.vNum limit),
         ("message", Value.vStr ("Column creation request submitted. " ++
           columnsApiNote ++ "."))], tr)

/-- The sparse update description built by update_project_column from the
raw argument map. -/
def updateColumnUpdates (request : List (String × Value)) (columnID : String) :
    List (String × Value) :=
  let updates : List (String × Value) := [("column_id", Value.vStr columnID)]
  let updates := match lookupArg request "name" with
    | some (Value.vStr n) => if n ≠ "" then updates ++ [("name", Value.vStr n)] else updates
    | _ => updates
  let updates := match lookupArg request "description" with
    | some (Value.vStr d) =>
      if d ≠ "" then updates ++ [("description", Value.vStr d)] else updates
    | _ => updates
  let updates := match lookupArg request "limit" with
    | some (Value.vNum l) => updates ++ [("limit", Value.vNum l)]
    | _ => updates
  match lookupArg request "color" with
  | some (Value.vStr c) => if c ≠ "" then updates ++ [("color", Value.vStr c)] else updates
  | _ => updates

/-- UpdateProjectColumn returns a description of the intended column update;
the client is never acquired and no operation is issued (the acquisition in
the source is commented out). -/
def UpdateProjectColumn (_getGQLClient : Except String Gql)
    (request : List (String × Value)) : ToolResponse × List GqlCall :=
  match RequiredParamString request "column_id" with
  | .error e => (.errResult e, [])
  | .ok columnID =>
    (.okResult
      [("column_id", Value.vStr columnID),
       ("updates", Value.vObj (updateColumnUpdates request columnID)),
       ("message", Value.vStr ("Column update request submitted. " ++
         columnsApiNote ++ "."))], [])

/-- DeleteProjectColumn returns a description of the intended column
deletion; the client is never acquired and no operation is issued. -/
def DeleteProjectColumn (_getGQLClient : Except String Gql)
    (request : List (String × Value)) : ToolResponse × List GqlCall :=
  match RequiredParamString request "column_id" with
  | .error e => (.errResult e, [])
  | .ok columnID =>
    let archiveCards := OptionalParamBool request "archive_cards"
    (.okResult
      [("column_id", Value.vStr columnID),
       ("archive_cards", Value.vBool archiveCards),
       ("message", Value.vStr ("Column deletion request submitted. " ++
         columnsApiNote ++ "."))], [])

/-- ReorderProjectColumns validates the requested order and returns it; the
client is never acquired and no operation is issued. -/
def ReorderProjectColumns (_getGQLClient : Except String Gql)
    (request : List (String × Value)) : ToolResponse × List GqlCall :=
  match RequiredParamString request "board_id" with
  | .error e => (.errResult e, [])
  | .ok boardID =>
  match lookupArg request "column_order" with
  | none => (.errResult "missing required parameter: column_order", [])
  | some (Value.vArr elems) =>
    match valuesAsStrings elems with
    | none => (.errResult "column_order must contain string IDs", [])
    | some columnIDs =>
      (.okResult
        [("board_id", Value.vStr boardID),
         ("column_order", Value.vArr (columnIDs.map Value.vStr)),
         ("message", Value.vStr ("Column reorder request submitted. " ++
           columnsApiNote ++ " with specific ordering."))], [])
  | some _ => (.errResult "column_order must be an array", [])

/-- One output entry of list_project_columns, at its position, with the
count of items whose Status value carries this option's ID. -/
def columnEntry (items : List ColItemNode) (position : Nat) (o : OptionNode) :
    List (String × Value) :=
  let count := (items.filter (fun it =>
    it.statusOptionId ≠ "" && it.statusOptionId == o.id)).length
  [("id", Value.vStr o.id), ("name", Value.vStr o.name),
   ("description", Value.vStr o.description), ("color", Value.vStr o.color),
   ("position", Value.vNum position), ("item_count", Value.vNum count)]

/-- ListProjectColumns lists the Status field's options together with
per-option item counts. -/
def ListProjectColumns (getGQLClient : Except String Gql)
    (request : List (String × Value)) : ToolResponse × List GqlCall :=
  match RequiredParamString request "board_id" with
  | .error e => (.errResult e, [])
  | .ok boardID =>
  match getGQLClient with
  | .error e => (.fatal ("failed to get GitHub GraphQL client: " ++ e), [.acquireClient])
  | .ok client =>
  let tr : List GqlCall := [.acquireClient, .query "statusFieldAndItems"]
  match client.listColumnsQuery boardID with
  | .error e => (.errResult ("failed to list project columns: " ++ e), tr)
  | .ok res =>
    let columns := res.statusField.options.enum.map (fun p =>
      Value.vObj (columnEntry res.items p.1 p.2))
    (.okResult
      [("board_id", Value.vStr boardID),
       ("field_id", Value.vStr res.statusField.id),
       ("field_name", Value.vStr res.statusField.name),
       ("columns", Value.vArr columns),
       ("total_count", Value.vNum columns.length),
       ("total_items", Value.vNum res.itemsTotal)], tr)

/-- GetProjectColumn returns column metadata; the client is never acquired
and no operation is issued. -/
def GetProjectColumn (_getGQLClient : Except String Gql)
    (request : List (String × Value)) : ToolResponse × List GqlCall :=
  match RequiredParamString request "column_id" with
  | .error e => (.errResult e, [])
  | .ok columnID =>
    (.okResult
      [("column_id", Value.vStr columnID),
       ("message", Value.vStr ("Column details retrieved. " ++ columnsApiNote ++ ".")),
       ("info", Value.vStr "Use list_project_columns to get all columns with their current state.")],
      [])

/-- The name of the updated Status value after move_project_card: the first
returned field value whose field ID matches, else empty. -/
def findUpdatedColumn (fieldValues : List (String × String)) (fieldID : String) : String :=
  match fieldValues.find? (fun p => p.1 == fieldID) with
  | some p => p.2
  | none => ""

/-- MoveProjectCard moves a card to a column: acquire the client first, then
validate, resolve the column's field and project IDs, and issue one
`updateProjectV2ItemFieldValue` mutation. -/
def MoveProjectCard (getGQLClient : Except String Gql)
    (request : List (String × Value)) : ToolResponse × List GqlCall :=
  match getGQLClient with
  | .error e => (.errResult ("Failed to get GraphQL client: " ++ e), [.acquireClient])
  | .ok client =>
  match RequiredParamString request "card_id" with
  | .error e => (.errResult e, [.acquireClient])
  | .ok cardID =>
  match RequiredParamString request "column_id" with
  | .error e => (.errResult e, [.acquireClient])
  | .ok columnID =>
  let tr : List GqlCall := [.acquireClient, .query "columnOption"]
  match client.columnOptionQuery columnID with
  | .error e => (.errResult ("Failed to query column: " ++ e), tr)
  | .ok info =>
  let fieldID := info.fieldId
  let projectID := info.projectId
  let tr := tr ++ [GqlCall.mutate "updateProjectV2ItemFieldValue"]
  match client.moveCardMutation projectID cardID fieldID columnID with
  | .error e => (.errResult ("Failed to move card: " ++ e), tr)
  | .ok fieldValues =>
    let updatedColumn := findUpdatedColumn fieldValues fieldID
    (.okResult
      [("success", Value.vBool true), ("card_id", Value.vStr cardID),
       ("column_id", Value.vStr columnID), ("column_name", Value.vStr updatedColumn),
       ("project_id", Value.vStr projectID),
       ("message", Value.vStr "Card moved successfully")], tr)

/-- The field ID update_project_card resolves a field name to: the first
project field node whose `ProjectV2Field` or `ProjectV2SingleSelectField`
name matches, preferring the former's ID; empty when nothing matches. -/
def resolveFieldID (nodes : List UPCFieldNode) (fieldName : String) : String :=
  match nodes.find? (fun f => f.pfName == fieldName || f.ssfName == fieldName) with
  | some f => if f.pfId ≠ "" then f.pfId else f.ssfId
  | none => ""

/-- The `value` input of the per-field mutation (the Go switch on the
argument's dynamic type). -/
def encodeFieldValue : Value → Value
  | Value.vStr s => Value.vObj [("text", Value.vStr s)]
  | Value.vNum n => Value.vObj [("number", Value.vNum n)]
  | Value.vBool b => Value.vObj [("text", Value.vStr (if b then "true" else "false"))]
  | v => v

/-- The per-field update loop of update_project_card: skip names that do
not resolve to a field ID, otherwise issue one mutation and record an
`updated` or `failed` entry; returns the entries and the mutation trace. -/
def updateCardFields (client : Gql) (projectID cardID : String)
    (nodes : List UPCFieldNode) :
    List (String × Value) → List (List (String × Value)) × List GqlCall
  | [] => ([], [])
  | (fieldName, value) :: rest =>
    let fieldID := resolveFieldID nodes fieldName
    if fieldID = "" then updateCardFields client projectID cardID nodes rest
    else
      let entry := match client.updateFieldMutation projectID cardID fieldID
          (encodeFieldValue value) with
        | .ok _ =>
          [("field", Value.vStr fieldName), ("value", value),
           ("status", Value.vStr "updated")]
        | .error e =>
          [("field", Value.vStr fieldName), ("value", value),
           ("status", Value.vStr "failed"), ("error", Value.vStr e)]
      let p := updateCardFields client projectID cardID nodes rest
      (entry :: p.1, GqlCall.mutate "updateProjectV2ItemFieldValue" :: p.2)

/-- UpdateProjectCard updates card fields: acquire the client first, then
validate, query the item's project and field list, and issue one mutation
per resolvable field name, reporting per-field success or failure. -/
def UpdateProjectCard (getGQLClient : Except String Gql)
    (request : List (String × Value)) : ToolResponse × List GqlCall :=
  match getGQLClient with
  | .error e => (.errResult ("Failed to get GraphQL client: " ++ e), [.acquireClient])
  | .ok client =>
  match RequiredParamString request "card_id" with
  | .error e => (.errResult e, [.acquireClient])
  | .ok cardID =>
  let fields := OptionalParamObj request "fields"
  let tr : List GqlCall := [.acquireClient, .query "projectItem"]
  match client.updateItemQuery cardID with
  | .error e => (.errResult ("Failed to query item: " ++ e), tr)
  | .ok info =>
    let p := updateCardFields client info.projectId cardID info.fields fields
    (.okResult
      [("success", Value.vBool true), ("card_id", Value.vStr cardID),
       ("project_id", Value.vStr info.projectId),
       ("updates", Value.vArr (p.1.map Value.vObj)),
       ("message", Value.vStr ("Updated " ++ toString p.1.length ++ " fields"))],
      tr ++ p.2)

/-- RemoveCardFromProject archives or deletes a card: acquire the client
first, then validate, then issue the archive or delete mutation. -/
def RemoveCardFromProject (getGQLClient : Except String Gql)
    (request : List (String × Value)) : ToolResponse × List GqlCall :=
  match getGQLClient with
  | .error e => (.errResult ("Failed to get GraphQL client: " ++ e), [.acquireClient])
  | .ok client =>
  match RequiredParamString request "card_id" with
  | .error e => (.errResult e, [.acquireClient])
  | .ok cardID =>
  let archive := OptionalParamBool request "archive"
  if archive then
    let tr : List GqlCall := [.acquireClient, .mutate "archiveProjectV2Item"]
    match client.archiveItemMutation cardID with
    | .error e => (.errResult ("Failed to archive card: " ++ e), tr)
    | .ok _ =>
      (.okResult
        [("success", Value.vBool true), ("card_id", Value.vStr cardID),
         ("archived", Value.vBool true),
         ("message", Value.vStr "Card archived successfully")], tr)
  else
    let tr : List GqlCall := [.acquireClient, .mutate "deleteProjectV2Item"]
    match client.deleteItemMutation cardID with
    | .error e => (.errResult ("Failed to delete card: " ++ e), tr)
    | .ok deletedId =>
      (.okResult
        [("success", Value.vBool true), ("card_id", Value.vStr deletedId),
         ("deleted", Value.vBool true),
         ("message", Value.vStr "Card removed from project successfully")], tr)

/-- One per-card entry of bulk_move_cards' `results` array. -/
def bulkEntry (client : Gql) (info : ColumnInfo) (columnID cardID : String) :
    List (String × Value) :=
  match client.bulkMoveMutation info.projectId cardID info.fieldId columnID with
  | .ok _ => [("card_id", Value.vStr cardID), ("status", Value.vStr "moved")]
  | .error e =>
    [("card_id", Value.vStr cardID), ("status", Value.vStr "failed"),
     ("error", Value.vStr e)]

/-- Whether a results entry is tagged `moved`. -/
def statusIsMoved (entry : List (String × Value)) : Bool :=
  match lookupArg entry "status" with
  | some (Value.vStr s) => s == "moved"
  | _ => false

/-- BulkMoveCards moves several cards: acquire the client first, then
validate, resolve the target column once, then issue one move mutation per
card ID sequentially, accumulating per-card outcomes and aggregate counts;
overall success means at least one card moved. -/
def BulkMoveCards (getGQLClient : Except String Gql)
    (request : List (String × Value)) : ToolResponse × List GqlCall :=
  match getGQLClient with
  | .error e => (.errResult ("Failed to get GraphQL client: " ++ e), [.acquireClient])
  | .ok client =>
  match OptionalStringArrayParam request "card_ids" with
  | .error e => (.errResult e, [.acquireClient])
  | .ok cardIDs =>
  if cardIDs.length = 0 then
    (.errResult "card_ids array cannot be empty", [.acquireClient])
  else
  match RequiredParamString request "target_column_id" with
  | .error e => (.errResult e, [.acquireClient])
  | .ok columnID =>
  let tr : List GqlCall := [.acquireClient, .query "columnOption"]
  match client.columnOptionQuery columnID with
  | .error e => (.errResult ("Failed to query column: " ++ e), tr)
  | .ok info =>
    let results := cardIDs.map (bulkEntry client info columnID)
    let successCount := (results.filter statusIsMoved).length
    let tr := tr ++ cardIDs.map (fun _ => GqlCall.mutate "updateProjectV2ItemFieldValue")
    (.okResult
      [("success", Value.vBool (decide (0 < successCount))),
       ("total_cards", Value.vNum cardIDs.length),
       ("moved_count", Value.vNum successCount),
       ("failed_count", Value.vNum (cardIDs.length - successCount)),
       ("target_column_id", Value.vStr columnID),
       ("results", Value.vArr (results.map Value.vObj)),
       ("message", Value.vStr ("Moved " ++ toString successCount ++ " of " ++
         toString cardIDs.length ++ " cards successfully"))], tr)

/-- A client whose every oracle fails: the recording stub the spec's
testable properties call for (no handler under a validation-failure premise
may reach it). -/
def errClient : Gql where
  ownerQuery := fun _ => Except.error "unreachable"
  repoQuery := fun _ _ => Except.error "unreachable"
  createProject := fun _ => Except.error "unreachable"
  updateProjectVisibility := fun _ _ => Except.error "unreachable"
  updateProject := fun _ => Except.error "unreachable"
  deleteProject := fun _ => Except.error "unreachable"
  listProjects := fun _ _ _ => Except.error "unreachable"
  getProject := fun _ => Except.error "unreachable"
  statusFieldQuery := fun _ => Except.error "unreachable"
  listColumnsQuery := fun _ => Except.error "unreachable"
  columnOptionQuery := fun _ => Except.error "unreachable"
  moveCardMutation := fun _ _ _ _ => Except.error "unreachable"
  updateItemQuery := fun _ => Except.error "unreachable"
  updateFieldMutation := fun _ _ _ _ => Except.error "unreachable"
  archiveItemMutation := fun _ => Except.error "unreachable"
  deleteItemMutation := fun _ => Except.error "unreachable"
  bulkMoveMutation := fun _ _ _ _ => Except.error "unreachable"

/-- Whether the reorder_project_columns `column_order` argument is absent,
not an array, or an array with a non-string element. -/
def columnOrderInvalid (request : List (String × Value)) : Bool :=
  match lookupArg request "column_order" with
  | some (Value.vArr elems) => (valuesAsStrings elems).isNone
  | _ => true

theorem charsContain_iff (p s : List Char) : charsContain p s = true ↔ p <:+: s := by
  induction s with
  | nil =>
    simp [charsContain, List.isPrefixOf_iff_prefix, List.prefix_nil, List.infix_nil]
  | cons c rest ih =>
    simp [charsContain, List.isPrefixOf_iff_prefix, ih, List.infix_cons_iff]

theorem strContains_iff (s sub : String) :
    strContains s sub = true ↔ sub.data <:+: s.data := by
  rw [strContains]
  exact charsContain_iff _ _

theorem strContains_append_right (a b pat : String) (h : strContains b pat = true) :
    strContains (a ++ b) pat = true := by
  rw [strContains_iff] at h ⊢
  rw [String.data_append]
  exact h.trans (List.suffix_append a.data b.data).isInfix

/-- C8: ValidateProjectID succeeds exactly when its argument starts with
"PVT_" (otherwise failing with a message naming the PVT_ prefix),
ValidateColumnID exactly when it starts with "PVTFSC_" or "PVTSSF_", and
ValidateItemID exactly when it starts with "PVTI_"; success depends only on
the prefix test, never on the rest of the string. -/
theorem validator_prefix_semantics :
    ∀ id : String,
      ((ValidateProjectID id).failed = false ↔ strStartsWith id "PVT_" = true) ∧
      (strStartsWith id "PVT_" = false →
        ∃ m, ValidateProjectID id = Except.error m ∧ strContains m "PVT_" = true) ∧
      ((ValidateColumnID id).failed = false ↔
        (strStartsWith id "PVTFSC_" || strStartsWith id "PVTSSF_") = true) ∧
      ((ValidateItemID id).failed = false ↔ strStartsWith id "PVTI_" = true) := by
  intro id
  refine ⟨?_, ?_, ?_, ?_⟩
  · by_cases h : strStartsWith id "PVT_" <;> simp [ValidateProjectID, h, Except.failed]
  · intro h
    refine ⟨"invalid project ID format: '" ++ id ++
      "'. Project IDs should start with 'PVT_' (e.g., 'PVT_kwDOAM6J184ACzDx')", ?_, ?_⟩
    · simp [ValidateProjectID, h]
    · exact strContains_append_right _ _ _ (by decide)
  · by_cases h1 : strStartsWith id "PVTFSC_" <;> by_cases h2 : strStartsWith id "PVTSSF_" <;>
      simp [ValidateColumnID, h1, h2, Except.failed]
  · by_cases h : strStartsWith id "PVTI_" <;> simp [ValidateItemID, h, Except.failed]

theorem validator_prefix_semantics_witness :
    (ValidateProjectID "PVT_abc").failed = false ∧
    (∃ m, ValidateProjectID "XYZ_abc" = Except.error m ∧ strContains m "PVT_" = true) ∧
    (ValidateColumnID "PVTSSF_abc").failed = false ∧
    (ValidateItemID "PVTI_abc").failed = false :=
  ⟨((validator_prefix_semantics "PVT_abc").1).mpr (by decide),
   (validator_prefix_semantics "XYZ_abc").2.1 (by decide),
   ((validator_prefix_semantics "PVTSSF_abc").2.2.1).mpr (by decide),
   ((validator_prefix_semantics "PVTI_abc").2.2.2).mpr (by decide)⟩

set_option maxRecDepth 8192 in
/-- C9 counterexample: on an error text that contains "must be a member of
the" but also the higher-priority global-id pattern, FormatGraphQLError
appends the global-id hint and the membership remediation hint does not
appear at all (the else-if chain in formatSingleError picks only the first
match). -/
theorem membership_hint_counterexample :
    strContains
        "Could not resolve to a node with the global id of a user who must be a member of the org"
        "must be a member of the" = true ∧
    FormatGraphQLError
        "Could not resolve to a node with the global id of a user who must be a member of the org" =
      "Could not resolve to a node with the global id of a user who must be a member of the org" ++
        hintGlobalId ∧
    strContains
      (FormatGraphQLError
        "Could not resolve to a node with the global id of a user who must be a member of the org")
      hintMembership = false := by
  refine ⟨by decide, by decide, by decide⟩

/-- C9 amended: for every error text that contains "must be a member of
the", does not contain the higher-priority "Could not resolve to a node
with the global id" pattern, and does not JSON-unmarshal as a structured
error list, FormatGraphQLError returns the original message with the
organization-membership remediation hint appended exactly once. -/
theorem membership_hint_amended :
    ∀ msg : String, goJsonUnmarshalGraphQLErrors msg = none →
      strContains msg "Could not resolve to a node with the global id" = false →
      strContains msg "must be a member of the" = true →
      FormatGraphQLError msg = msg ++ hintMembership := by
  intro msg hjson hglob hmem
  have hmem2 : strContains msg "must be a member" = true := by
    rw [strContains_iff] at hmem ⊢
    exact List.IsInfix.trans (by decide) hmem
  have hfb : parseGraphQLErrorFallback msg =
      some [{ message := msg, path := [], extensions := [] }] := by
    unfold parseGraphQLErrorFallback
    simp [hmem2]
  have hsingle : formatSingleError { message := msg, path := [], extensions := [] } =
      msg ++ hintMembership := by
    unfold formatSingleError
    simp [hglob, hmem]
  unfold FormatGraphQLError ParseGraphQLError
  rw [hjson, hfb]
  exact hsingle

set_option maxRecDepth 8192 in
theorem membership_hint_amended_witness :
    FormatGraphQLError "you must be a member of the acme organization" =
      "you must be a member of the acme organization" ++ hintMembership :=
  membership_hint_amended "you must be a member of the acme organization"
    rfl (by decide) (by decide)

/-- C1 counterexample: a move_project_card request with the required
card_id absent returns a tool-level error, yet the GraphQL client has been
acquired from the factory (the card handlers acquire the client before
validating parameters), contradicting "neither acquired from the
factory". -/
theorem required_param_counterexample :
    (MoveProjectCard (Except.ok errClient) []).1.isToolError = true ∧
    (MoveProjectCard (Except.ok errClient) []).2 = [GqlCall.acquireClient] :=
  ⟨rfl, rfl⟩

/-- C1 amended: whenever a required parameter is absent or wrongly typed,
every handler returns a tool-level error result and issues no GraphQL query
or mutation; the board and column handlers moreover never acquire the
client from the factory, while the GraphQL-backed card handlers
(move_project_card, update_project_card, remove_card_from_project,
bulk_move_cards) acquire the client before validating, so for them only
the absence of queries and mutations holds. -/
theorem required_param_amended :
    (∀ request fac, (RequiredParamString request "name").failed = true ∨
        (RequiredParamString request "owner").failed = true →
      (CreateProjectBoard fac request).1.isToolError = true ∧
      (CreateProjectBoard fac request).2 = []) ∧
    (∀ request fac, (RequiredParamString request "board_id").failed = true →
      (UpdateProjectBoard fac request).1.isToolError = true ∧
      (UpdateProjectBoard fac request).2 = []) ∧
    (∀ request fac, (RequiredParamString request "board_id").failed = true ∨
        (RequiredParamBool request "confirm").failed = true →
      (DeleteProjectBoard fac request).1.isToolError = true ∧
      (DeleteProjectBoard fac request).2 = []) ∧
    (∀ request fac, (RequiredParamString request "owner").failed = true →
      (ListProjectBoards fac request).1.isToolError = true ∧
      (ListProjectBoards fac request).2 = []) ∧
    (∀ request fac, (RequiredParamString request "board_id").failed = true →
      (GetProjectBoard fac request).1.isToolError = true ∧
      (GetProjectBoard fac request).2 = []) ∧
    (∀ request fac, (RequiredParamString request "board_id").failed = true ∨
        (RequiredParamString request "name").failed = true →
      (CreateProjectColumn fac request).1.isToolError = true ∧
      (CreateProjectColumn fac request).2 = []) ∧
    (∀ request fac, (RequiredParamString request "column_id").failed = true →
      (UpdateProjectColumn fac request).1.isToolError = true ∧
      (UpdateProjectColumn fac request).2 = []) ∧
    (∀ request fac, (RequiredParamString request "column_id").failed = true →
      (DeleteProjectColumn fac request).1.isToolError = true ∧
      (DeleteProjectColumn fac request).2 = []) ∧
    (∀ request fac, (RequiredParamString request "board_id").failed = true ∨
        columnOrderInvalid request = true →
      (ReorderProjectColumns fac request).1.isToolError = true ∧
      (ReorderProjectColumns fac request).2 = []) ∧
    (∀ request fac, (RequiredParamString request "board_id").failed = true →
      (ListProjectColumns fac request).1.isToolError = true ∧
      (ListProjectColumns fac request).2 = []) ∧
    (∀ request fac, (RequiredParamString request "column_id").failed = true →
      (GetProjectColumn fac request).1.isToolError = true ∧
      (GetProjectColumn fac request).2 = []) ∧
    (∀ request fac, (RequiredParamString request "card_id").failed = true ∨
        (RequiredParamString request "column_id").failed = true →
      (MoveProjectCard fac request).1.isToolError = true ∧
      (MoveProjectCard fac request).2.filter isNetworkCall = []) ∧
    (∀ request fac, (RequiredParamString request "card_id").failed = true →
      (UpdateProjectCard fac request).1.isToolError = true ∧
      (UpdateProjectCard fac request).2.filter isNetworkCall = []) ∧
    (∀ request fac, (RequiredParamString request "card_id").failed = true →
      (RemoveCardFromProject fac request).1.isToolError = true ∧
      (RemoveCardFromProject fac request).2.filter isNetworkCall = []) ∧
    (∀ request fac, (OptionalStringArrayParam request "card_ids").failed = true ∨
        OptionalStringArrayParam request "card_ids" = Except.ok [] ∨
        (RequiredParamString request "target_column_id").failed = true →
      (BulkMoveCards fac request).1.isToolError = true ∧
      (BulkMoveCards fac request).2.filter isNetworkCall = []) := by
  refine ⟨?_, ?_, ?_, ?_, ?_, ?_, ?_, ?_, ?_, ?_, ?_, ?_, ?_, ?_, ?_⟩
  · intro request fac h
    cases hn : RequiredParamString request "name" with
    | error e => refine ⟨?_, ?_⟩ <;> simp [CreateProjectBoard, hn, ToolResponse.isToolError]
    | ok v =>
      cases ho : RequiredParamString request "owner" with
      | error e =>
        refine ⟨?_, ?_⟩ <;> simp [CreateProjectBoard, hn, ho, ToolResponse.isToolError]
      | ok w =>
        rw [hn, ho] at h
        simp [Except.failed] at h
  · intro request fac h
    cases hb : RequiredParamString request "board_id" with
    | error e => refine ⟨?_, ?_⟩ <;> simp [UpdateProjectBoard, hb, ToolResponse.isToolError]
    | ok v =>
      rw [hb] at h
      simp [Except.failed] at h
  · intro request fac h
    cases hb : RequiredParamString request "board_id" with
    | error e => refine ⟨?_, ?_⟩ <;> simp [DeleteProjectBoard, hb, ToolResponse.isToolError]
    | ok v =>
      cases hc : RequiredParamBool request "confirm" with
      | error e =>
        refine ⟨?_, ?_⟩ <;> simp [DeleteProjectBoard, hb, hc, ToolResponse.isToolError]
      | ok b =>
        rw [hb, hc] at h
        simp [Except.failed] at h
  · intro request fac h
    cases hb : RequiredParamString request "owner" with
    | error e => refine ⟨?_, ?_⟩ <;> simp [ListProjectBoards, hb, ToolResponse.isToolError]
    | ok v =>
      rw [hb] at h
      simp [Except.failed] at h
  · intro request fac h
    cases hb : RequiredParamString request "board_id" with
    | error e => refine ⟨?_, ?_⟩ <;> simp [GetProjectBoard, hb, ToolResponse.isToolError]
    | ok v =>
      rw [hb] at h
      simp [Except.failed] at h
  · intro request fac h
    cases hb : RequiredParamString request "board_id" with
    | error e => refine ⟨?_, ?_⟩ <;> simp [CreateProjectColumn, hb, ToolResponse.isToolError]
    | ok v =>
      cases hn : RequiredParamString request "name" with
      | error e =>
        refine ⟨?_, ?_⟩ <;> simp [CreateProjectColumn, hb, hn, ToolResponse.isToolError]
      | ok w =>
        rw [hb, hn] at h
        simp [Except.failed] at h
  · intro request fac h
    cases hc : RequiredParamString request "column_id" with
    | error e =>
      refine ⟨?_, ?_⟩ <;> simp [UpdateProjectColumn, hc, ToolResponse.isToolError]
    | ok v =>
      rw [hc] at h
      simp [Except.failed] at h
  · intro request fac h
    cases hc : RequiredParamString request "column_id" with
    | error e =>
      refine ⟨?_, ?_⟩ <;> simp [DeleteProjectColumn, hc, ToolResponse.isToolError]
    | ok v =>
      rw [hc] at h
      simp [Except.failed] at h
  · intro request fac h
    cases hb : RequiredParamString request "board_id" with
    | error e =>
      refine ⟨?_, ?_⟩ <;> simp [ReorderProjectColumns, hb, ToolResponse.isToolError]
    | ok v =>
      rcases h with h | h
      · rw [hb] at h
        simp [Except.failed] at h
      · unfold columnOrderInvalid at h
        cases hl : lookupArg request "column_order" with
        | none =>
          refine ⟨?_, ?_⟩ <;>
            simp [ReorderProjectColumns, hb, hl, ToolResponse.isToolError]
        | some v2 =>
          cases v2 with
          | vArr elems =>
            rw [hl] at h
            simp at h
            cases hs : valuesAsStrings elems with
            | none =>
              refine ⟨?_, ?_⟩ <;>
                simp [ReorderProjectColumns, hb, hl, hs, ToolResponse.isToolError]
            | some ss =>
              rw [hs] at h
              simp at h
          | vStr s =>
            refine ⟨?_, ?_⟩ <;>
              simp [ReorderProjectColumns, hb, hl, ToolResponse.isToolError]
          | vNum n =>
            refine ⟨?_, ?_⟩ <;>
              simp [ReorderProjectColumns, hb, hl, ToolResponse.isToolError]
          | vBool b =>
            refine ⟨?_, ?_⟩ <;>
              simp [ReorderProjectColumns, hb, hl, ToolResponse.isToolError]
          | vObj o =>
            refine ⟨?_, ?_⟩ <;>
              simp [ReorderProjectColumns, hb, hl, ToolResponse.isToolError]
  · intro request fac h
    cases hb : RequiredParamString request "board_id" with
    | error e => refine ⟨?_, ?_⟩ <;> simp [ListProjectColumns, hb, ToolResponse.isToolError]
    | ok v =>
      rw [hb] at h
      simp [Except.failed] at h
  · intro request fac h
    cases hc : RequiredParamString request "column_id" with
    | error e => refine ⟨?_, ?_⟩ <;> simp [GetProjectColumn, hc, ToolResponse.isToolError]
    | ok v =>
      rw [hc] at h
      simp [Except.failed] at h
  · intro request fac h
    cases fac with
    | error e =>
      refine ⟨?_, ?_⟩ <;> simp [MoveProjectCard, isNetworkCall, ToolResponse.isToolError]
    | ok client =>
      cases hc : RequiredParamString request "card_id" with
      | error e =>
        refine ⟨?_, ?_⟩ <;>
          simp [MoveProjectCard, hc, isNetworkCall, ToolResponse.isToolError]
      | ok cid =>
        cases hcol : RequiredParamString request "column_id" with
        | error e =>
          refine ⟨?_, ?_⟩ <;>
            simp [MoveProjectCard, hc, hcol, isNetworkCall, ToolResponse.isToolError]
        | ok col =>
          rw [hc, hcol] at h
          simp [Except.failed] at h
  · intro request fac h
    cases fac with
    | error e =>
      refine ⟨?_, ?_⟩ <;> simp [UpdateProjectCard, isNetworkCall, ToolResponse.isToolError]
    | ok client =>
      cases hc : RequiredParamString request "card_id" with
      | error e =>
        refine ⟨?_, ?_⟩ <;>
          simp [UpdateProjectCard, hc, isNetworkCall, ToolResponse.isToolError]
      | ok cid =>
        rw [hc] at h
        simp [Except.failed] at h
  · intro request fac h
    cases fac with
    | error e =>
      refine ⟨?_, ?_⟩ <;>
        simp [RemoveCardFromProject, isNetworkCall, ToolResponse.isToolError]
    | ok client =>
      cases hc : RequiredParamString request "card_id" with
      | error e =>
        refine ⟨?_, ?_⟩ <;>
          simp [RemoveCardFromProject, hc, isNetworkCall, ToolResponse.isToolError]
      | ok cid =>
        rw [hc] at h
        simp [Except.failed] at h
  · intro request fac h
    cases fac with
    | error e =>
      refine ⟨?_, ?_⟩ <;> simp [BulkMoveCards, isNetworkCall, ToolResponse.isToolError]
    | ok client =>
      cases harr : OptionalStringArrayParam request "card_ids" with
      | error e =>
        refine ⟨?_, ?_⟩ <;>
          simp [BulkMoveCards, harr, isNetworkCall, ToolResponse.isToolError]
      | ok ids =>
        by_cases hlen : ids.length = 0
        · refine ⟨?_, ?_⟩ <;>
            simp [BulkMoveCards, harr, hlen, isNetworkCall, ToolResponse.isToolError]
        · cases ht : RequiredParamString request "target_column_id" with
          | error e =>
            refine ⟨?_, ?_⟩ <;>
              simp [BulkMoveCards, harr, hlen, ht, isNetworkCall, ToolResponse.isToolError]
          | ok col =>
            rcases h with h | h | h
            · rw [harr] at h
              simp [Except.failed] at h
            · rw [harr] at h
              simp at h
              rw [h] at hlen
              simp at hlen
            · rw [ht] at h
              simp [Except.failed] at h

theorem required_param_amended_witness :
    (CreateProjectBoard (Except.error "no factory") []).1.isToolError = true ∧
    (CreateProjectBoard (Except.error "no factory") []).2 = [] ∧
    (BulkMoveCards (Except.ok errClient) []).1.isToolError = true ∧
    (BulkMoveCards (Except.ok errClient) []).2.filter isNetworkCall = [] := by
  have h1 := required_param_amended.1 [] (Except.error "no factory") (Or.inl (by decide))
  have h2 := required_param_amended.2.2.2.2.2.2.2.2.2.2.2.2.2.2 [] (Except.ok errClient)
    (Or.inr (Or.inl rfl))
  exact ⟨h1.1, h1.2, h2.1, h2.2⟩

/-- C2: delete_project_board fails closed — whenever `confirm` is not the
boolean true (absent, false, or wrongly typed) the handler returns an error
result and performs no client interaction at all; conversely the
deleteProjectV2 mutation appears in the trace only when `confirm` is
present and true, and it is issued whenever validation passes with
`confirm` true and a client is available. -/
theorem delete_board_confirm_gate :
    (∀ request fac, lookupArg request "confirm" ≠ some (Value.vBool true) →
      (DeleteProjectBoard fac request).1.isToolError = true ∧
      (DeleteProjectBoard fac request).2 = []) ∧
    (∀ request fac, GqlCall.mutate "deleteProjectV2" ∈ (DeleteProjectBoard fac request).2 →
      lookupArg request "confirm" = some (Value.vBool true)) ∧
    (∀ request client boardID, RequiredParamString request "board_id" = Except.ok boardID →
      lookupArg request "confirm" = some (Value.vBool true) →
      GqlCall.mutate "deleteProjectV2" ∈
        (DeleteProjectBoard (Except.ok client) request).2) := by
  have part1 : ∀ request fac, lookupArg request "confirm" ≠ some (Value.vBool true) →
      (DeleteProjectBoard fac request).1.isToolError = true ∧
      (DeleteProjectBoard fac request).2 = [] := by
    intro request fac h
    cases hb : RequiredParamString request "board_id" with
    | error e => refine ⟨?_, ?_⟩ <;> simp [DeleteProjectBoard, hb, ToolResponse.isToolError]
    | ok boardID =>
      cases hl : lookupArg request "confirm" with
      | none =>
        refine ⟨?_, ?_⟩ <;>
          simp [DeleteProjectBoard, RequiredParamBool, hb, hl, ToolResponse.isToolError]
      | some v =>
        cases v with
        | vBool b =>
          cases b with
          | false =>
            refine ⟨?_, ?_⟩ <;>
              simp [DeleteProjectBoard, RequiredParamBool, hb, hl, ToolResponse.isToolError]
          | true => exact absurd hl h
        | vStr s =>
          refine ⟨?_, ?_⟩ <;>
            simp [DeleteProjectBoard, RequiredParamBool, hb, hl, ToolResponse.isToolError]
        | vNum n =>
          refine ⟨?_, ?_⟩ <;>
            simp [DeleteProjectBoard, RequiredParamBool, hb, hl, ToolResponse.isToolError]
        | vArr a =>
          refine ⟨?_, ?_⟩ <;>
            simp [DeleteProjectBoard, RequiredParamBool, hb, hl, ToolResponse.isToolError]
        | vObj o =>
          refine ⟨?_, ?_⟩ <;>
            simp [DeleteProjectBoard, RequiredParamBool, hb, hl, ToolResponse.isToolError]
  refine ⟨part1, ?_, ?_⟩
  · intro request fac hmem
    by_cases h : lookupArg request "confirm" = some (Value.vBool true)
    · exact h
    · have h2 := (part1 request fac h).2
      rw [h2] at hmem
      simp at hmem
  · intro request client boardID hb hc
    have hcb : RequiredParamBool request "confirm" = Except.ok true := by
      simp [RequiredParamBool, hc]
    cases hd : client.deleteProject boardID with
    | error e => simp [DeleteProjectBoard, hb, hcb, hd]
    | ok deletedId => simp [DeleteProjectBoard, hb, hcb, hd]

theorem delete_board_confirm_gate_witness :
    (DeleteProjectBoard (Except.ok errClient)
        [("board_id", Value.vStr "PVT_x"), ("confirm", Value.vBool false)]).1.isToolError
      = true ∧
    (DeleteProjectBoard (Except.ok errClient)
        [("board_id", Value.vStr "PVT_x"), ("confirm", Value.vBool false)]).2 = [] ∧
    GqlCall.mutate "deleteProjectV2" ∈
      (DeleteProjectBoard (Except.ok errClient)
        [("board_id", Value.vStr "PVT_x"), ("confirm", Value.vBool true)]).2 := by
  have h1 := delete_board_confirm_gate.1
    [("board_id", Value.vStr "PVT_x"), ("confirm", Value.vBool false)]
    (Except.ok errClient) (by simp [lookupArg])
  have h3 := delete_board_confirm_gate.2.2
    [("board_id", Value.vStr "PVT_x"), ("confirm", Value.vBool true)]
    errClient "PVT_x" rfl rfl
  exact ⟨h1.1, h1.2, h3⟩

/-- C3: for create_project_board with public=true, once owner resolution
and the creation mutation succeed, the result always reports the created
project's id — the visibility-update oracle is left completely
unconstrained, so the outcome is independent of it — and the
updateProjectV2 visibility mutation appears in the trace; when the public
flag is not requested (false or absent) that mutation is never issued. -/
theorem create_board_visibility_best_effort :
    (∀ request client name owner oids p,
      RequiredParamString request "name" = Except.ok name →
      RequiredParamString request "owner" = Except.ok owner →
      OptionalParamBool request "public" = true →
      client.ownerQuery owner = Except.ok oids →
      (oids.userId ≠ "" ∨ oids.orgId ≠ "") →
      (OptionalParamString request "repository" = "" ∨
        ∃ rid, client.repoQuery owner (OptionalParamString request "repository") =
          Except.ok rid) →
      (∀ inp, client.createProject inp = Except.ok p) →
      (CreateProjectBoard (Except.ok client) request).1.field "id" =
        some (Value.vStr p.id) ∧
      GqlCall.mutate "updateProjectV2" ∈ (CreateProjectBoard (Except.ok client) request).2) ∧
    (∀ request fac, OptionalParamBool request "public" = false →
      GqlCall.mutate "updateProjectV2" ∉ (CreateProjectBoard fac request).2) := by
  constructor
  · intro request client name owner oids p hn ho hpub hoq howner hrep hcp
    by_cases hu : oids.userId = ""
    · have horg : oids.orgId ≠ "" := by
        rcases howner with h | h
        · exact absurd hu h
        · exact h
      by_cases hr : OptionalParamString request "repository" = ""
      · refine ⟨?_, ?_⟩ <;>
          simp [CreateProjectBoard, hn, ho, hoq, hu, horg, hpub, hr, hcp,
            createBoardResult, ToolResponse.field, lookupArg]
      · rcases hrep with hrep | ⟨rid, hrid⟩
        · exact absurd hrep hr
        · refine ⟨?_, ?_⟩ <;>
            simp [CreateProjectBoard, hn, ho, hoq, hu, horg, hpub, hr, hrid, hcp,
              createBoardResult, ToolResponse.field, lookupArg]
    · by_cases hr : OptionalParamString request "repository" = ""
      · refine ⟨?_, ?_⟩ <;>
          simp [CreateProjectBoard, hn, ho, hoq, hu, hpub, hr, hcp,
            createBoardResult, ToolResponse.field, lookupArg]
      · rcases hrep with hrep | ⟨rid, hrid⟩
        · exact absurd hrep hr
        · refine ⟨?_, ?_⟩ <;>
            simp [CreateProjectBoard, hn, ho, hoq, hu, hpub, hr, hrid, hcp,
              createBoardResult, ToolResponse.field, lookupArg]
  · intro request fac hpub
    simp only [CreateProjectBoard, hpub]
    repeat' split
    all_goals simp_all

theorem create_board_visibility_best_effort_witness :
    (CreateProjectBoard
      (Except.ok { errClient with
        ownerQuery := fun _ => Except.ok ⟨"U1", ""⟩,
        createProject := fun _ =>
          Except.ok ⟨"PVT_new", 1, "board", false, "http://u", ""⟩ })
      [("name", Value.vStr "board"), ("owner", Value.vStr "me"),
       ("public", Value.vBool true)]).1.field "id" = some (Value.vStr "PVT_new") ∧
    GqlCall.mutate "updateProjectV2" ∈
      (CreateProjectBoard
        (Except.ok { errClient with
          ownerQuery := fun _ => Except.ok ⟨"U1", ""⟩,
          createProject := fun _ =>
            Except.ok ⟨"PVT_new", 1, "board", false, "http://u", ""⟩ })
        [("name", Value.vStr "board"), ("owner", Value.vStr "me"),
         ("public", Value.vBool true)]).2 ∧
    GqlCall.mutate "updateProjectV2" ∉
      (CreateProjectBoard (Except.ok errClient)
        [("name", Value.vStr "board"), ("owner", Value.vStr "me")]).2 := by
  have h1 := create_board_visibility_best_effort.1
    [("name", Value.vStr "board"), ("owner", Value.vStr "me"),
     ("public", Value.vBool true)]
    { errClient with
      ownerQuery := fun _ => Except.ok ⟨"U1", ""⟩,
      createProject := fun _ =>
        Except.ok ⟨"PVT_new", 1, "board", false, "http://u", ""⟩ }
    "board" "me" ⟨"U1", ""⟩ ⟨"PVT_new", 1, "board", false, "http://u", ""⟩
    rfl rfl rfl rfl (Or.inl (by decide)) (Or.inl rfl) (fun _ => rfl)
  have h2 := create_board_visibility_best_effort.2
    [("name", Value.vStr "board"), ("owner", Value.vStr "me")]
    (Except.ok errClient) rfl
  exact ⟨h1.1, h1.2, h2⟩

theorem statusIsMoved_bulkEntry (client : Gql) (info : ColumnInfo)
    (columnID cid : String) :
    statusIsMoved (bulkEntry client info columnID cid) =
      !(client.bulkMoveMutation info.projectId cid info.fieldId columnID).failed := by
  cases h : client.bulkMoveMutation info.projectId cid info.fieldId columnID <;>
    simp [bulkEntry, statusIsMoved, lookupArg, Except.failed, h]

theorem bulk_moved_count (client : Gql) (info : ColumnInfo) (columnID : String)
    (ids : List String) :
    ((ids.map (bulkEntry client info columnID)).filter statusIsMoved).length =
      (ids.filter (fun cid =>
        !(client.bulkMoveMutation info.projectId cid info.fieldId columnID).failed)).length := by
  rw [List.filter_map, List.length_map]
  congr 1
  apply List.filter_congr
  intro x _
  simp [Function.comp, statusIsMoved_bulkEntry]

/-- C4: for bulk_move_cards with a non-empty list of N card IDs, once the
column query succeeds, one move mutation is issued per ID (the trace holds
exactly N of them), the results array holds exactly one entry per ID, each
entry tagged moved or failed (failed ones carrying the error, by
`bulkEntry`), moved_count equals the number of successful mutations,
failed_count is N minus moved_count, and success is true exactly when at
least one card moved. -/
theorem bulk_move_cards_aggregation :
    ∀ request client ids columnID info,
      OptionalStringArrayParam request "card_ids" = Except.ok ids →
      ids ≠ [] →
      RequiredParamString request "target_column_id" = Except.ok columnID →
      client.columnOptionQuery columnID = Except.ok info →
      (BulkMoveCards (Except.ok client) request).1.field "results" =
        some (Value.vArr ((ids.map (bulkEntry client info columnID)).map Value.vObj)) ∧
      (ids.map (bulkEntry client info columnID)).length = ids.length ∧
      (BulkMoveCards (Except.ok client) request).1.field "moved_count" =
        some (Value.vNum ((ids.filter (fun cid =>
          !(client.bulkMoveMutation info.projectId cid info.fieldId
            columnID).failed)).length)) ∧
      (BulkMoveCards (Except.ok client) request).1.field "failed_count" =
        some (Value.vNum (ids.length - (ids.filter (fun cid =>
          !(client.bulkMoveMutation info.projectId cid info.fieldId
            columnID).failed)).length)) ∧
      (BulkMoveCards (Except.ok client) request).1.field "success" =
        some (Value.vBool (decide (0 < (ids.filter (fun cid =>
          !(client.bulkMoveMutation info.projectId cid info.fieldId
            columnID).failed)).length))) ∧
      (BulkMoveCards (Except.ok client) request).2 =
        [GqlCall.acquireClient, GqlCall.query "columnOption"] ++
          ids.map (fun _ => GqlCall.mutate "updateProjectV2ItemFieldValue") := by
  intro request client ids columnID info harr hne ht hinfo
  have hlen : ¬(ids.length = 0) := fun h => hne (List.length_eq_zero.mp h)
  refine ⟨?_, ?_, ?_, ?_, ?_, ?_⟩ <;>
    simp [BulkMoveCards, harr, hlen, ht, hinfo, ToolResponse.field, lookupArg,
      bulk_moved_count]

theorem bulk_move_cards_aggregation_witness :
    (BulkMoveCards
      (Except.ok { errClient with
        columnOptionQuery := fun _ => Except.ok ⟨"PVTSSF_opt", "Done", "F1", "P1"⟩,
        bulkMoveMutation := fun _ cid _ _ =>
          if cid = "c2" then Except.error "boom" else Except.ok () })
      [("card_ids", Value.vArr [Value.vStr "c1", Value.vStr "c2", Value.vStr "c3"]),
       ("target_column_id", Value.vStr "PVTSSF_opt")]).1.field "moved_count" =
      some (Value.vNum 2) ∧
    (BulkMoveCards
      (Except.ok { errClient with
        columnOptionQuery := fun _ => Except.ok ⟨"PVTSSF_opt", "Done", "F1", "P1"⟩,
        bulkMoveMutation := fun _ cid _ _ =>
          if cid = "c2" then Except.error "boom" else Except.ok () })
      [("card_ids", Value.vArr [Value.vStr "c1", Value.vStr "c2", Value.vStr "c3"]),
       ("target_column_id", Value.vStr "PVTSSF_opt")]).1.field "failed_count" =
      some (Value.vNum 1) ∧
    (BulkMoveCards
      (Except.ok { errClient with
        columnOptionQuery := fun _ => Except.ok ⟨"PVTSSF_opt", "Done", "F1", "P1"⟩,
        bulkMoveMutation := fun _ cid _ _ =>
          if cid = "c2" then Except.error "boom" else Except.ok () })
      [("card_ids", Value.vArr [Value.vStr "c1", Value.vStr "c2", Value.vStr "c3"]),
       ("target_column_id", Value.vStr "PVTSSF_opt")]).1.field "success" =
      some (Value.vBool true) := by
  have h := bulk_move_cards_aggregation
    [("card_ids", Value.vArr [Value.vStr "c1", Value.vStr "c2", Value.vStr "c3"]),
     ("target_column_id", Value.vStr "PVTSSF_opt")]
    { errClient with
      columnOptionQuery := fun _ => Except.ok ⟨"PVTSSF_opt", "Done", "F1", "P1"⟩,
      bulkMoveMutation := fun _ cid _ _ =>
        if cid = "c2" then Except.error "boom" else Except.ok () }
    ["c1", "c2", "c3"] "PVTSSF_opt" ⟨"PVTSSF_opt", "Done", "F1", "P1"⟩
    rfl (by simp) rfl rfl
  exact ⟨h.2.2.1.trans rfl, h.2.2.2.1.trans rfl, h.2.2.2.2.1.trans rfl⟩

/-- C5: create_project_column, update_project_column, delete_project_column
and reorder_project_columns never issue any GraphQL mutation (the last
three never touch the client at all, create only queries the Status
field), and every valid invocation returns a success payload whose message
carries the explicit API-limitation note. -/
theorem column_mutations_are_noops :
    (∀ request fac, (CreateProjectColumn fac request).2.filter isMutateCall = []) ∧
    (∀ request fac, (UpdateProjectColumn fac request).2 = []) ∧
    (∀ request fac, (DeleteProjectColumn fac request).2 = []) ∧
    (∀ request fac, (ReorderProjectColumns fac request).2 = []) ∧
    (∀ request client boardID name sf,
      RequiredParamString request "board_id" = Except.ok boardID →
      RequiredParamString request "name" = Except.ok name →
      client.statusFieldQuery boardID = Except.ok sf → sf.id ≠ "" →
      ∃ m, (CreateProjectColumn (Except.ok client) request).1.field "message" =
          some (Value.vStr m) ∧ strContains m columnsApiNote = true) ∧
    (∀ request fac columnID,
      RequiredParamString request "column_id" = Except.ok columnID →
      ∃ m, (UpdateProjectColumn fac request).1.field "message" =
          some (Value.vStr m) ∧ strContains m columnsApiNote = true) ∧
    (∀ request fac columnID,
      RequiredParamString request "column_id" = Except.ok columnID →
      ∃ m, (DeleteProjectColumn fac request).1.field "message" =
          some (Value.vStr m) ∧ strContains m columnsApiNote = true) ∧
    (∀ request fac boardID,
      RequiredParamString request "board_id" = Except.ok boardID →
      columnOrderInvalid request = false →
      ∃ m, (ReorderProjectColumns fac request).1.field "message" =
          some (Value.vStr m) ∧ strContains m columnsApiNote = true) := by
  refine ⟨?_, ?_, ?_, ?_, ?_, ?_, ?_, ?_⟩
  · intro request fac
    simp only [CreateProjectColumn]
    repeat' split
    all_goals simp [isMutateCall]
  · intro request fac
    simp only [UpdateProjectColumn]
    repeat' split
    all_goals rfl
  · intro request fac
    simp only [DeleteProjectColumn]
    repeat' split
    all_goals rfl
  · intro request fac
    simp only [ReorderProjectColumns]
    repeat' split
    all_goals rfl
  · intro request client boardID name sf hb hn hsf hid
    refine ⟨"Column creation request submitted. " ++ columnsApiNote ++ ".", ?_, by decide⟩
    simp [CreateProjectColumn, hb, hn, hsf, hid, ToolResponse.field, lookupArg]
  · intro request fac columnID hc
    refine ⟨"Column update request submitted. " ++ columnsApiNote ++ ".", ?_, by decide⟩
    simp [UpdateProjectColumn, hc, ToolResponse.field, lookupArg]
  · intro request fac columnID hc
    refine ⟨"Column deletion request submitted. " ++ columnsApiNote ++ ".", ?_, by decide⟩
    simp [DeleteProjectColumn, hc, ToolResponse.field, lookupArg]
  · intro request fac boardID hb hvalid
    unfold columnOrderInvalid at hvalid
    cases hl : lookupArg request "column_order" with
    | none => rw [hl] at hvalid; simp at hvalid
    | some v =>
      cases v with
      | vArr elems =>
        rw [hl] at hvalid
        simp at hvalid
        cases hs : valuesAsStrings elems with
        | none => rw [hs] at hvalid; simp at hvalid
        | some ss =>
          refine ⟨"Column reorder request submitted. " ++ columnsApiNote ++
            " with specific ordering.", ?_, by decide⟩
          simp only [ReorderProjectColumns, hb, hl, hs]
          simp [ToolResponse.field, lookupArg]
      | vStr s => rw [hl] at hvalid; simp at hvalid
      | vNum n => rw [hl] at hvalid; simp at hvalid
      | vBool b => rw [hl] at hvalid; simp at hvalid
      | vObj o => rw [hl] at hvalid; simp at hvalid

theorem column_mutations_are_noops_witness :
    (∃ m, (CreateProjectColumn
        (Except.ok { errClient with
          statusFieldQuery := fun _ =>
            Except.ok ⟨"PVTSSF_f", "Status", [⟨"PVTSSF_o1", "Todo", "", ""⟩]⟩ })
        [("board_id", Value.vStr "PVT_b"), ("name", Value.vStr "QA")]).1.field "message" =
        some (Value.vStr m) ∧ strContains m columnsApiNote = true) ∧
    (∃ m, (UpdateProjectColumn (Except.ok errClient)
        [("column_id", Value.vStr "PVTSSF_o1")]).1.field "message" =
        some (Value.vStr m) ∧ strContains m columnsApiNote = true) ∧
    (∃ m, (DeleteProjectColumn (Except.ok errClient)
        [("column_id", Value.vStr "PVTSSF_o1")]).1.field "message" =
        some (Value.vStr m) ∧ strContains m columnsApiNote = true) ∧
    (∃ m, (ReorderProjectColumns (Except.ok errClient)
        [("board_id", Value.vStr "PVT_b"),
         ("column_order", Value.vArr [Value.vStr "PVTSSF_o1"])]).1.field "message" =
        some (Value.vStr m) ∧ strContains m columnsApiNote = true) ∧
    (CreateProjectColumn
      (Except.ok { errClient with
        statusFieldQuery := fun _ =>
          Except.ok ⟨"PVTSSF_f", "Status", [⟨"PVTSSF_o1", "Todo", "", ""⟩]⟩ })
      [("board_id", Value.vStr "PVT_b"), ("name", Value.vStr "QA")]).2.filter
        isMutateCall = [] := by
  refine ⟨?_, ?_, ?_, ?_, ?_⟩
  · exact column_mutations_are_noops.2.2.2.2.1
      [("board_id", Value.vStr "PVT_b"), ("name", Value.vStr "QA")]
      { errClient with
        statusFieldQuery := fun _ =>
          Except.ok ⟨"PVTSSF_f", "Status", [⟨"PVTSSF_o1", "Todo", "", ""⟩]⟩ }
      "PVT_b" "QA" ⟨"PVTSSF_f", "Status", [⟨"PVTSSF_o1", "Todo", "", ""⟩]⟩
      rfl rfl rfl (by decide)
  · exact column_mutations_are_noops.2.2.2.2.2.1
      [("column_id", Value.vStr "PVTSSF_o1")] (Except.ok errClient) "PVTSSF_o1" rfl
  · exact column_mutations_are_noops.2.2.2.2.2.2.1
      [("column_id", Value.vStr "PVTSSF_o1")] (Except.ok errClient) "PVTSSF_o1" rfl
  · exact column_mutations_are_noops.2.2.2.2.2.2.2
      [("board_id", Value.vStr "PVT_b"),
       ("column_order", Value.vArr [Value.vStr "PVTSSF_o1"])]
      (Except.ok errClient) "PVT_b" rfl (by decide)
  · exact column_mutations_are_noops.1
      [("board_id", Value.vStr "PVT_b"), ("name", Value.vStr "QA")]
      (Except.ok { errClient with
        statusFieldQuery := fun _ =>
          Except.ok ⟨"PVTSSF_f", "Status", [⟨"PVTSSF_o1", "Todo", "", ""⟩]⟩ })

/-- C6: a get_project_board request that sets include_stats=false and
include_fields=false still gets the statistics and fields sections — the
handler coerces both flags back to true (`if includeStats == false then
includeStats = true`), so the flags can never disable the sections the
tool's own parameter descriptions say they gate. -/
theorem get_board_flags_forced_true :
    OptionalParamBool
      [("board_id", Value.vStr "PVT_b"), ("include_stats", Value.vBool false),
       ("include_fields", Value.vBool false)] "include_stats" = false ∧
    OptionalParamBool
      [("board_id", Value.vStr "PVT_b"), ("include_stats", Value.vBool false),
       ("include_fields", Value.vBool false)] "include_fields" = false ∧
    (GetProjectBoard
      (Except.ok { errClient with
        getProject := fun _ =>
          Except.ok ⟨"PVT_b", 7, "T", "", "", false, false, "http://u",
            "2024-01-01T00:00:00Z", "2024-01-01T00:00:00Z", "User", "me", "", 3, [], 0⟩ })
      [("board_id", Value.vStr "PVT_b"), ("include_stats", Value.vBool false),
       ("include_fields", Value.vBool false)]).1.field "statistics" =
      some (Value.vObj [("total_items", Value.vNum 3)]) ∧
    (GetProjectBoard
      (Except.ok { errClient with
        getProject := fun _ =>
          Except.ok ⟨"PVT_b", 7, "T", "", "", false, false, "http://u",
            "2024-01-01T00:00:00Z", "2024-01-01T00:00:00Z", "User", "me", "", 3, [], 0⟩ })
      [("board_id", Value.vStr "PVT_b"), ("include_stats", Value.vBool false),
       ("include_fields", Value.vBool false)]).1.field "fields_count" =
      some (Value.vNum 0) :=
  ⟨rfl, rfl, rfl, rfl⟩

/-- C7: list_project_boards issues the same single query covering both
namespaces whatever the type filter is, and filters client-side: with
type "user" the projects array is exactly the user entries (so no entry is
tagged organization), with "organization" exactly the organization
entries, with "all" (the default for an absent type) the concatenation;
every entry is annotated with its owner type. -/
theorem list_boards_owner_type_filter :
    ∀ request client owner us os,
      RequiredParamString request "owner" = Except.ok owner →
      client.listProjects owner (listBoardsLimit request)
        (OptionalParamBool request "include_closed") = Except.ok (us, os) →
      (OptionalParamString request "type" = "" → listBoardsOwnerType request = "all") ∧
      (listBoardsOwnerType request = "user" →
        (ListProjectBoards (Except.ok client) request).1.field "projects" =
          some (Value.vArr (us.map (fun p => Value.vObj (projectEntry "user" p))))) ∧
      (listBoardsOwnerType request = "user" →
        ∀ v, (∃ l, (ListProjectBoards (Except.ok client) request).1.field "projects" =
            some (Value.vArr l) ∧ v ∈ l) →
          ∃ e, v = Value.vObj e ∧
            lookupArg e "owner_type" = some (Value.vStr "user")) ∧
      (listBoardsOwnerType request = "organization" →
        (ListProjectBoards (Except.ok client) request).1.field "projects" =
          some (Value.vArr (os.map (fun p =>
            Value.vObj (projectEntry "organization" p))))) ∧
      (listBoardsOwnerType request = "all" →
        (ListProjectBoards (Except.ok client) request).1.field "projects" =
          some (Value.vArr (us.map (fun p => Value.vObj (projectEntry "user" p)) ++
            os.map (fun p => Value.vObj (projectEntry "organization" p))))) ∧
      (∀ p, lookupArg (projectEntry "user" p) "owner_type" =
        some (Value.vStr "user")) ∧
      (∀ p, lookupArg (projectEntry "organization" p) "owner_type" =
        some (Value.vStr "organization")) ∧
      (ListProjectBoards (Except.ok client) request).2 =
        [GqlCall.acquireClient, GqlCall.query "projectsV2"] := by
  intro request client owner us os ho hlp
  have huser : ∀ p, lookupArg (projectEntry "user" p) "owner_type" =
      some (Value.vStr "user") := fun p => rfl
  have horg : ∀ p, lookupArg (projectEntry "organization" p) "owner_type" =
      some (Value.vStr "organization") := fun p => rfl
  refine ⟨?_, ?_, ?_, ?_, ?_, huser, horg, ?_⟩
  · intro h
    simp [listBoardsOwnerType, h]
  · intro h
    simp [ListProjectBoards, ho, hlp, h, ToolResponse.field, lookupArg]
  · intro h v hv
    rcases hv with ⟨l, hl, hvmem⟩
    have hproj : (ListProjectBoards (Except.ok client) request).1.field "projects" =
        some (Value.vArr (us.map (fun p => Value.vObj (projectEntry "user" p)))) := by
      simp [ListProjectBoards, ho, hlp, h, ToolResponse.field, lookupArg]
    rw [hproj] at hl
    have : l = us.map (fun p => Value.vObj (projectEntry "user" p)) := by
      injection hl with h2
      injection h2 with h3
      exact h3.symm
    subst this
    rcases List.mem_map.mp hvmem with ⟨p, _, rfl⟩
    exact ⟨projectEntry "user" p, rfl, huser p⟩
  · intro h
    simp [ListProjectBoards, ho, hlp, h, ToolResponse.field, lookupArg]
  · intro h
    simp [ListProjectBoards, ho, hlp, h, ToolResponse.field, lookupArg]
  · simp [ListProjectBoards, ho, hlp]

theorem list_boards_owner_type_filter_witness :
    (ListProjectBoards
      (Except.ok { errClient with
        listProjects := fun _ _ _ =>
          Except.ok ([], [⟨"PVT_o", 1, "OrgBoard", "", "", true, false, "http://o",
            "2024-01-01T00:00:00Z", "2024-01-01T00:00:00Z", 0⟩]) })
      [("owner", Value.vStr "me"), ("type", Value.vStr "user")]).1.field "projects" =
      some (Value.vArr []) := by
  have h := list_boards_owner_type_filter
    [("owner", Value.vStr "me"), ("type", Value.vStr "user")]
    { errClient with
      listProjects := fun _ _ _ =>
        Except.ok ([], [⟨"PVT_o", 1, "OrgBoard", "", "", true, false, "http://o",
          "2024-01-01T00:00:00Z", "2024-01-01T00:00:00Z", 0⟩]) }
    "me" []
    [⟨"PVT_o", 1, "OrgBoard", "", "", true, false, "http://o",
      "2024-01-01T00:00:00Z", "2024-01-01T00:00:00Z", 0⟩]
    rfl rfl
  exact (h.2.1 rfl).trans rfl

theorem updateCardFields_length (client : Gql) (projectID cardID : String)
    (nodes : List UPCFieldNode) (fs : List (String × Value)) :
    (updateCardFields client projectID cardID nodes fs).1.length =
      (fs.filter (fun kv => !(resolveFieldID nodes kv.1 == ""))).length := by
  induction fs with
  | nil => rfl
  | cons kv rest ih =>
    obtain ⟨k, v⟩ := kv
    by_cases h : resolveFieldID nodes k = ""
    · simp [updateCardFields, h, ih]
    · cases hm : client.updateFieldMutation projectID cardID (resolveFieldID nodes k)
          (encodeFieldValue v) <;>
        simp [updateCardFields, h, hm, ih]

/-- C10: whenever the update_project_card item query succeeds the result
carries success=true whatever the per-field mutation outcomes are (the
mutation oracle is unconstrained), its message counts every update entry —
failed ones included — and field names that resolve to no field ID
contribute no entry at all: the updates array has exactly one entry per
resolvable requested field. -/
theorem update_card_partial_success :
    ∀ request client cardID info,
      RequiredParamString request "card_id" = Except.ok cardID →
      client.updateItemQuery cardID = Except.ok info →
      (UpdateProjectCard (Except.ok client) request).1.field "success" =
        some (Value.vBool true) ∧
      (UpdateProjectCard (Except.ok client) request).1.field "updates" =
        some (Value.vArr ((updateCardFields client info.projectId cardID info.fields
          (OptionalParamObj request "fields")).1.map Value.vObj)) ∧
      (UpdateProjectCard (Except.ok client) request).1.field "message" =
        some (Value.vStr ("Updated " ++
          toString (updateCardFields client info.projectId cardID info.fields
            (OptionalParamObj request "fields")).1.length ++ " fields")) ∧
      (updateCardFields client info.projectId cardID info.fields
          (OptionalParamObj request "fields")).1.length =
        ((OptionalParamObj request "fields").filter
          (fun kv => !(resolveFieldID info.fields kv.1 == ""))).length := by
  intro request client cardID info hc hq
  refine ⟨?_, ?_, ?_, updateCardFields_length client info.projectId cardID info.fields
    (OptionalParamObj request "fields")⟩ <;>
    simp [UpdateProjectCard, hc, hq, ToolResponse.field, lookupArg]

theorem update_card_partial_success_witness :
    (UpdateProjectCard
      (Except.ok { errClient with
        updateItemQuery := fun _ => Except.ok ⟨"P1", [⟨"F1", "Priority", "", ""⟩]⟩,
        updateFieldMutation := fun _ _ _ _ => Except.error "boom" })
      [("card_id", Value.vStr "PVTI_c"),
       ("fields", Value.vObj [("Priority", Value.vStr "high"),
         ("Unknown", Value.vStr "x")])]).1.field "success" =
      some (Value.vBool true) ∧
    (UpdateProjectCard
      (Except.ok { errClient with
        updateItemQuery := fun _ => Except.ok ⟨"P1", [⟨"F1", "Priority", "", ""⟩]⟩,
        updateFieldMutation := fun _ _ _ _ => Except.error "boom" })
      [("card_id", Value.vStr "PVTI_c"),
       ("fields", Value.vObj [("Priority", Value.vStr "high"),
         ("Unknown", Value.vStr "x")])]).1.field "message" =
      some (Value.vStr "Updated 1 fields") := by
  have h := update_card_partial_success
    [("card_id", Value.vStr "PVTI_c"),
     ("fields", Value.vObj [("Priority", Value.vStr "high"),
       ("Unknown", Value.vStr "x")])]
    { errClient with
      updateItemQuery := fun _ => Except.ok ⟨"P1", [⟨"F1", "Priority", "", ""⟩]⟩,
      updateFieldMutation := fun _ _ _ _ => Except.error "boom" }
    "PVTI_c" ⟨"P1", [⟨"F1", "Priority", "", ""⟩]⟩ rfl rfl
  exact ⟨h.1, h.2.2.1.trans rfl⟩
